import Mathlib

/-!
Verification development for `lib/basis_transcode.cpp` of KTX-Software: shallow
embedding of `ktxTexture2_TranscodeBasis`, `ktxTexture2_transcodeEtc1s` and
`ktxTexture2_transcodeUastc`, plus theorems about the spec's claims.

External collaborators (the basisu transcoding engine, `ktxTexture2_Create`,
`ktxTexture2_LoadImageData`, size/alignment helpers from `texture2.c`, and the
header layout from `basis_sgd.h`) are not in the source tree; where the code
under scrutiny depends on them they are modelled from the spec, each such
definition says so in its doc comment.
-/

/-- Error codes (`ktx.h`), restricted to the values `basis_transcode.cpp` can
produce or receive. -/
inductive KTX_error_code where
  | KTX_SUCCESS
  | KTX_FILE_DATA_ERROR
  | KTX_INVALID_OPERATION
  | KTX_INVALID_VALUE
  | KTX_TRANSCODE_FAILED
  | KTX_UNSUPPORTED_FEATURE
  | KTX_OUT_OF_MEMORY
deriving DecidableEq, Repr

export KTX_error_code (KTX_SUCCESS KTX_FILE_DATA_ERROR KTX_INVALID_OPERATION
  KTX_INVALID_VALUE KTX_TRANSCODE_FAILED KTX_UNSUPPORTED_FEATURE KTX_OUT_OF_MEMORY)

/-- Transcode target formats (`ktx_transcode_fmt_e` from `ktx.h`), exactly the
values handled by the switches in `ktxTexture2_TranscodeBasis`, plus
`KTX_TTF_NOSELECTION` standing for any value outside the supported set. -/
inductive ktx_transcode_fmt where
  | KTX_TTF_ETC1_RGB
  | KTX_TTF_ETC2_RGBA
  | KTX_TTF_BC1_RGB
  | KTX_TTF_BC3_RGBA
  | KTX_TTF_BC4_R
  | KTX_TTF_BC5_RG
  | KTX_TTF_BC7_RGBA
  | KTX_TTF_PVRTC1_4_RGB
  | KTX_TTF_PVRTC1_4_RGBA
  | KTX_TTF_PVRTC2_4_RGB
  | KTX_TTF_PVRTC2_4_RGBA
  | KTX_TTF_ASTC_4x4_RGBA
  | KTX_TTF_ETC2_EAC_R11
  | KTX_TTF_ETC2_EAC_RG11
  | KTX_TTF_RGBA32
  | KTX_TTF_RGB565
  | KTX_TTF_BGR565
  | KTX_TTF_RGBA4444
  | KTX_TTF_ETC
  | KTX_TTF_BC1_OR_3
  | KTX_TTF_NOSELECTION
deriving DecidableEq, Repr

export ktx_transcode_fmt (KTX_TTF_ETC1_RGB KTX_TTF_ETC2_RGBA KTX_TTF_BC1_RGB
  KTX_TTF_BC3_RGBA KTX_TTF_BC4_R KTX_TTF_BC5_RG KTX_TTF_BC7_RGBA
  KTX_TTF_PVRTC1_4_RGB KTX_TTF_PVRTC1_4_RGBA KTX_TTF_PVRTC2_4_RGB
  KTX_TTF_PVRTC2_4_RGBA KTX_TTF_ASTC_4x4_RGBA KTX_TTF_ETC2_EAC_R11
  KTX_TTF_ETC2_EAC_RG11 KTX_TTF_RGBA32 KTX_TTF_RGB565 KTX_TTF_BGR565
  KTX_TTF_RGBA4444 KTX_TTF_ETC KTX_TTF_BC1_OR_3 KTX_TTF_NOSELECTION)

/-- Vulkan format tags (`vkformat_enum.h`), restricted to the tags assigned by
the `switch (outputFormat)` in `ktxTexture2_TranscodeBasis`, plus
`VK_FORMAT_UNDEFINED` which supercompressed source containers carry. -/
inductive VkFormat where
  | VK_FORMAT_UNDEFINED
  | VK_FORMAT_ETC2_R8G8B8_SRGB_BLOCK
  | VK_FORMAT_ETC2_R8G8B8_UNORM_BLOCK
  | VK_FORMAT_ETC2_R8G8B8A8_SRGB_BLOCK
  | VK_FORMAT_ETC2_R8G8B8A8_UNORM_BLOCK
  | VK_FORMAT_EAC_R11_UNORM_BLOCK
  | VK_FORMAT_EAC_R11G11_UNORM_BLOCK
  | VK_FORMAT_BC1_RGB_SRGB_BLOCK
  | VK_FORMAT_BC1_RGB_UNORM_BLOCK
  | VK_FORMAT_BC3_SRGB_BLOCK
  | VK_FORMAT_BC3_UNORM_BLOCK
  | VK_FORMAT_BC4_UNORM_BLOCK
  | VK_FORMAT_BC5_UNORM_BLOCK
  | VK_FORMAT_PVRTC1_4BPP_SRGB_BLOCK_IMG
  | VK_FORMAT_PVRTC1_4BPP_UNORM_BLOCK_IMG
  | VK_FORMAT_PVRTC2_4BPP_SRGB_BLOCK_IMG
  | VK_FORMAT_PVRTC2_4BPP_UNORM_BLOCK_IMG
  | VK_FORMAT_BC7_SRGB_BLOCK
  | VK_FORMAT_BC7_UNORM_BLOCK
  | VK_FORMAT_ASTC_4x4_SRGB_BLOCK
  | VK_FORMAT_ASTC_4x4_UNORM_BLOCK
  | VK_FORMAT_R5G6B5_UNORM_PACK16
  | VK_FORMAT_B5G6R5_UNORM_PACK16
  | VK_FORMAT_R4G4B4A4_UNORM_PACK16
  | VK_FORMAT_R8G8B8A8_SRGB
  | VK_FORMAT_R8G8B8A8_UNORM
deriving DecidableEq, Repr

export VkFormat (VK_FORMAT_UNDEFINED VK_FORMAT_ETC2_R8G8B8_SRGB_BLOCK
  VK_FORMAT_ETC2_R8G8B8_UNORM_BLOCK VK_FORMAT_ETC2_R8G8B8A8_SRGB_BLOCK
  VK_FORMAT_ETC2_R8G8B8A8_UNORM_BLOCK VK_FORMAT_EAC_R11_UNORM_BLOCK
  VK_FORMAT_EAC_R11G11_UNORM_BLOCK VK_FORMAT_BC1_RGB_SRGB_BLOCK
  VK_FORMAT_BC1_RGB_UNORM_BLOCK VK_FORMAT_BC3_SRGB_BLOCK VK_FORMAT_BC3_UNORM_BLOCK
  VK_FORMAT_BC4_UNORM_BLOCK VK_FORMAT_BC5_UNORM_BLOCK
  VK_FORMAT_PVRTC1_4BPP_SRGB_BLOCK_IMG VK_FORMAT_PVRTC1_4BPP_UNORM_BLOCK_IMG
  VK_FORMAT_PVRTC2_4BPP_SRGB_BLOCK_IMG VK_FORMAT_PVRTC2_4BPP_UNORM_BLOCK_IMG
  VK_FORMAT_BC7_SRGB_BLOCK VK_FORMAT_BC7_UNORM_BLOCK VK_FORMAT_ASTC_4x4_SRGB_BLOCK
  VK_FORMAT_ASTC_4x4_UNORM_BLOCK VK_FORMAT_R5G6B5_UNORM_PACK16
  VK_FORMAT_B5G6R5_UNORM_PACK16 VK_FORMAT_R4G4B4A4_UNORM_PACK16
  VK_FORMAT_R8G8B8A8_SRGB VK_FORMAT_R8G8B8A8_UNORM)

/-- Supercompression schemes (`ktx.h`), the ones this code distinguishes. -/
inductive ktxSupercmpScheme where
  | KTX_SS_NONE
  | KTX_SS_BASIS_UNIVERSAL
  | KTX_SS_ZSTD
deriving DecidableEq, Repr

export ktxSupercmpScheme (KTX_SS_NONE KTX_SS_BASIS_UNIVERSAL KTX_SS_ZSTD)

/-- `KHR_DF_MODEL_UASTC` from `khr_df.h` (value from the Khronos data-format
header, which is outside `src/`; only its identity is used here). -/
def KHR_DF_MODEL_UASTC : Nat := 166

/-- `KHR_DF_MODEL_ETC1S` from `khr_df.h` (outside `src/`). -/
def KHR_DF_MODEL_ETC1S : Nat := 163

/-- `KHR_DF_MODEL_RGBSDA` from `khr_df.h` (outside `src/`). -/
def KHR_DF_MODEL_RGBSDA : Nat := 1

/-- `KHR_DF_TRANSFER_LINEAR` from `khr_df.h` (outside `src/`). -/
def KHR_DF_TRANSFER_LINEAR : Nat := 1

/-- `KHR_DF_TRANSFER_SRGB` from `khr_df.h` (outside `src/`). -/
def KHR_DF_TRANSFER_SRGB : Nat := 2

/-- `KHR_DF_CHANNEL_UASTC_ALPHAPRESENT` from `khr_df.h` (outside `src/`; the
code only compares sample 0's channel id against it, so only its identity
matters). -/
def KHR_DF_CHANNEL_UASTC_ALPHAPRESENT : Nat := 3

/-- The fields of the data format descriptor block that
`basis_transcode.cpp` reads through `KHR_DFDVAL`/`KHR_DFDSVAL`
(`colorModel`, `transfer`, sample 0's channel id), kept as one record so the
whole DFD can be compared/replaced as the code replaces `This->pDfd`. -/
structure DFD where
  colorModel : Nat
  transfer : Nat
  sample0ChannelId : Nat
deriving DecidableEq, Repr, Inhabited

/-- One entry of the level index (`ktxLevelIndexEntry` of `ktxint.h`). -/
structure ktxLevelIndexEntry where
  byteOffset : Nat
  byteLength : Nat
  uncompressedByteLength : Nat
deriving DecidableEq, Repr, Inhabited

/-- Per-image slice descriptor of the BasisLZ supercompression global data
(`ktxBasisImageDesc` of `basis_sgd.h`). -/
structure ktxBasisImageDesc where
  imageFlags : Nat
  rgbSliceByteOffset : Nat
  rgbSliceByteLength : Nat
  alphaSliceByteOffset : Nat
  alphaSliceByteLength : Nat
deriving DecidableEq, Repr, Inhabited

/-- Header of the BasisLZ supercompression global data (`ktxBasisGlobalHeader`
of `basis_sgd.h`). -/
structure ktxBasisGlobalHeader where
  globalFlags : Nat
  endpointCount : Nat
  selectorCount : Nat
  endpointsByteLength : Nat
  selectorsByteLength : Nat
  tablesByteLength : Nat
  extendedByteLength : Nat
deriving DecidableEq, Repr, Inhabited

/-- Modelled from the spec: the parsed view of the supercompression global
data buffer (`basis_sgd.h` is not under `src/`): the fixed header followed by
the packed image-descriptor array. -/
structure SGD where
  header : ktxBasisGlobalHeader
  imageDescs : List ktxBasisImageDesc
deriving DecidableEq, Repr, Inhabited

/-- Modelled from the spec: `sizeof(ktxBasisGlobalHeader)` — the fixed header
fields of §6 (2 u16 counts, 4 u32 byte lengths, u32 flags). -/
def SIZEOF_BGDH : Nat := 24

/-- Modelled from the spec: `sizeof(ktxBasisImageDesc)` — five u32 fields. -/
def SIZEOF_IMAGE_DESC : Nat := 20

/-- Texel-block geometry of a pixel format (`ktxFormatSize`, carried in the
container's protected area and copied wholesale by the commit step). -/
structure ktxFormatSize where
  blockWidth : Nat
  blockHeight : Nat
  blockSizeInBits : Nat
deriving DecidableEq, Repr, Inhabited

/-- The `ktxTexture2` container, restricted to the fields
`basis_transcode.cpp` reads or writes (public fields, the private level index,
supercompression global data and required level alignment, and the protected
format size).  `pData = none` models `This->pData == NULL` (image data not yet
materialized); `pendingData` models the content an active stream would
deliver, so `pendingData.isSome` plays `ktxTexture_isActiveStream`.
`numComponents` is the value the external `ktxTexture2_GetNumComponents`
reports for this container. -/
structure ktxTexture2 where
  vkFormat : VkFormat
  baseWidth : Nat
  baseHeight : Nat
  baseDepth : Nat
  numDimensions : Nat
  numLevels : Nat
  numLayers : Nat
  numFaces : Nat
  isArray : Bool
  isVideo : Bool
  isCompressed : Bool
  generateMipmaps : Bool
  supercompressionScheme : ktxSupercmpScheme
  pDfd : DFD
  pData : Option (List Nat)
  dataSize : Nat
  numComponents : Nat
  supercompressionGlobalData : Option SGD
  sgdByteLength : Nat
  requiredLevelAlignment : Nat
  levelIndex : List ktxLevelIndexEntry
  pendingData : Option (List Nat)
  formatSize : ktxFormatSize
deriving DecidableEq, Repr

/-- `getBlockWidth` from `basis_transcode.cpp`: `(w + (bw - 1)) / bw`. -/
def getBlockWidth (w bw : Nat) : Nat := (w + (bw - 1)) / bw

/-- `getBlockHeight` from `basis_transcode.cpp`: `(h + (bh - 1)) / bh`. -/
def getBlockHeight (h bh : Nat) : Nat := (h + (bh - 1)) / bh

/-- `isPow2` from `basis_transcode.cpp`: `x && ((x & (x - 1U)) == 0U)`. -/
def isPow2 (x : Nat) : Bool := decide (x ≠ 0) && decide (x &&& (x - 1) = 0)

/-- `_KTX_PADN` from `ktxint.h` (outside `src/`): round `n` up to the next
multiple of `align`; the alignments used here are powers of two, for which the
mask form in the macro equals this rounding. -/
def KTX_PADN (align n : Nat) : Nat :=
  if align = 0 then n else ((n + align - 1) / align) * align

/-- The `hasAlpha` computation of `ktxTexture2_TranscodeBasis` (lines
190–199): for a BasisLZ (ETC1S) source, 2 or 4 components; for a UASTC
source, sample 0's channel id equals `KHR_DF_CHANNEL_UASTC_ALPHAPRESENT`. -/
def transcodeHasAlpha (This : ktxTexture2) : Bool :=
  if This.supercompressionScheme = KTX_SS_BASIS_UNIVERSAL then
    This.numComponents == 2 || This.numComponents == 4
  else
    This.pDfd.sample0ChannelId == KHR_DF_CHANNEL_UASTC_ALPHAPRESENT

/-- The first `switch (outputFormat)` of `ktxTexture2_TranscodeBasis` (lines
204–221): resolve the ambiguous formats from `hasAlpha`. -/
def resolveOutputFormat (hasAlpha : Bool) (outputFormat : ktx_transcode_fmt) :
    ktx_transcode_fmt :=
  match outputFormat with
  | KTX_TTF_BC1_OR_3 => if hasAlpha then KTX_TTF_BC3_RGBA else KTX_TTF_BC1_RGB
  | KTX_TTF_ETC => if hasAlpha then KTX_TTF_ETC2_RGBA else KTX_TTF_ETC1_RGB
  | KTX_TTF_PVRTC1_4_RGBA =>
      if hasAlpha then KTX_TTF_PVRTC1_4_RGBA else KTX_TTF_PVRTC1_4_RGB
  | KTX_TTF_PVRTC2_4_RGBA =>
      if hasAlpha then KTX_TTF_PVRTC2_4_RGBA else KTX_TTF_PVRTC2_4_RGB
  | f => f

/-- The second `switch (outputFormat)` of `ktxTexture2_TranscodeBasis` (lines
223–286): pick the concrete `VkFormat`; `none` models the `default:` branch
returning `KTX_INVALID_VALUE`. -/
def vkFormatFor (srgb : Bool) (outputFormat : ktx_transcode_fmt) :
    Option VkFormat :=
  match outputFormat with
  | KTX_TTF_ETC1_RGB =>
      some (if srgb then VK_FORMAT_ETC2_R8G8B8_SRGB_BLOCK
            else VK_FORMAT_ETC2_R8G8B8_UNORM_BLOCK)
  | KTX_TTF_ETC2_RGBA =>
      some (if srgb then VK_FORMAT_ETC2_R8G8B8A8_SRGB_BLOCK
            else VK_FORMAT_ETC2_R8G8B8A8_UNORM_BLOCK)
  | KTX_TTF_ETC2_EAC_R11 => some VK_FORMAT_EAC_R11_UNORM_BLOCK
  | KTX_TTF_ETC2_EAC_RG11 => some VK_FORMAT_EAC_R11G11_UNORM_BLOCK
  | KTX_TTF_BC1_RGB =>
      some (if srgb then VK_FORMAT_BC1_RGB_SRGB_BLOCK
            else VK_FORMAT_BC1_RGB_UNORM_BLOCK)
  | KTX_TTF_BC3_RGBA =>
      some (if srgb then VK_FORMAT_BC3_SRGB_BLOCK else VK_FORMAT_BC3_UNORM_BLOCK)
  | KTX_TTF_BC4_R => some VK_FORMAT_BC4_UNORM_BLOCK
  | KTX_TTF_BC5_RG => some VK_FORMAT_BC5_UNORM_BLOCK
  | KTX_TTF_PVRTC1_4_RGB =>
      some (if srgb then VK_FORMAT_PVRTC1_4BPP_SRGB_BLOCK_IMG
            else VK_FORMAT_PVRTC1_4BPP_UNORM_BLOCK_IMG)
  | KTX_TTF_PVRTC1_4_RGBA =>
      some (if srgb then VK_FORMAT_PVRTC1_4BPP_SRGB_BLOCK_IMG
            else VK_FORMAT_PVRTC1_4BPP_UNORM_BLOCK_IMG)
  | KTX_TTF_PVRTC2_4_RGB =>
      some (if srgb then VK_FORMAT_PVRTC2_4BPP_SRGB_BLOCK_IMG
            else VK_FORMAT_PVRTC2_4BPP_UNORM_BLOCK_IMG)
  | KTX_TTF_PVRTC2_4_RGBA =>
      some (if srgb then VK_FORMAT_PVRTC2_4BPP_SRGB_BLOCK_IMG
            else VK_FORMAT_PVRTC2_4BPP_UNORM_BLOCK_IMG)
  | KTX_TTF_BC7_RGBA =>
      some (if srgb then VK_FORMAT_BC7_SRGB_BLOCK else VK_FORMAT_BC7_UNORM_BLOCK)
  | KTX_TTF_ASTC_4x4_RGBA =>
      some (if srgb then VK_FORMAT_ASTC_4x4_SRGB_BLOCK
            else VK_FORMAT_ASTC_4x4_UNORM_BLOCK)
  | KTX_TTF_RGB565 => some VK_FORMAT_R5G6B5_UNORM_PACK16
  | KTX_TTF_BGR565 => some VK_FORMAT_B5G6R5_UNORM_PACK16
  | KTX_TTF_RGBA4444 => some VK_FORMAT_R4G4B4A4_UNORM_PACK16
  | KTX_TTF_RGBA32 =>
      some (if srgb then VK_FORMAT_R8G8B8A8_SRGB else VK_FORMAT_R8G8B8A8_UNORM)
  | _ => none

/-- Whether a `VkFormat` tag is one of the `_SRGB` variants. -/
def VkFormat.isSrgb : VkFormat → Bool
  | VK_FORMAT_ETC2_R8G8B8_SRGB_BLOCK => true
  | VK_FORMAT_ETC2_R8G8B8A8_SRGB_BLOCK => true
  | VK_FORMAT_BC1_RGB_SRGB_BLOCK => true
  | VK_FORMAT_BC3_SRGB_BLOCK => true
  | VK_FORMAT_PVRTC1_4BPP_SRGB_BLOCK_IMG => true
  | VK_FORMAT_PVRTC2_4BPP_SRGB_BLOCK_IMG => true
  | VK_FORMAT_BC7_SRGB_BLOCK => true
  | VK_FORMAT_ASTC_4x4_SRGB_BLOCK => true
  | VK_FORMAT_R8G8B8A8_SRGB => true
  | _ => false

/-- Which transcode targets have an sRGB Vulkan variant at all, i.e. for which
the `vkFormat` switch consults `srgb`. -/
def hasSrgbVariant : ktx_transcode_fmt → Bool
  | KTX_TTF_ETC1_RGB => true
  | KTX_TTF_ETC2_RGBA => true
  | KTX_TTF_BC1_RGB => true
  | KTX_TTF_BC3_RGBA => true
  | KTX_TTF_PVRTC1_4_RGB => true
  | KTX_TTF_PVRTC1_4_RGBA => true
  | KTX_TTF_PVRTC2_4_RGB => true
  | KTX_TTF_PVRTC2_4_RGBA => true
  | KTX_TTF_BC7_RGBA => true
  | KTX_TTF_ASTC_4x4_RGBA => true
  | KTX_TTF_RGBA32 => true
  | _ => false

/-- Modelled from the spec: texel-block geometry of each target `VkFormat`
(the container factory computes it; `vkformat` helpers are outside `src/`).
Block-compressed targets are 4×4 blocks of 8 or 16 bytes; uncompressed
targets are 1×1 texels of 2 or 4 bytes. -/
def vkFormatSize : VkFormat → ktxFormatSize
  | VK_FORMAT_UNDEFINED => ⟨1, 1, 0⟩
  | VK_FORMAT_ETC2_R8G8B8_SRGB_BLOCK => ⟨4, 4, 64⟩
  | VK_FORMAT_ETC2_R8G8B8_UNORM_BLOCK => ⟨4, 4, 64⟩
  | VK_FORMAT_ETC2_R8G8B8A8_SRGB_BLOCK => ⟨4, 4, 128⟩
  | VK_FORMAT_ETC2_R8G8B8A8_UNORM_BLOCK => ⟨4, 4, 128⟩
  | VK_FORMAT_EAC_R11_UNORM_BLOCK => ⟨4, 4, 64⟩
  | VK_FORMAT_EAC_R11G11_UNORM_BLOCK => ⟨4, 4, 128⟩
  | VK_FORMAT_BC1_RGB_SRGB_BLOCK => ⟨4, 4, 64⟩
  | VK_FORMAT_BC1_RGB_UNORM_BLOCK => ⟨4, 4, 64⟩
  | VK_FORMAT_BC3_SRGB_BLOCK => ⟨4, 4, 128⟩
  | VK_FORMAT_BC3_UNORM_BLOCK => ⟨4, 4, 128⟩
  | VK_FORMAT_BC4_UNORM_BLOCK => ⟨4, 4, 64⟩
  | VK_FORMAT_BC5_UNORM_BLOCK => ⟨4, 4, 128⟩
  | VK_FORMAT_PVRTC1_4BPP_SRGB_BLOCK_IMG => ⟨4, 4, 64⟩
  | VK_FORMAT_PVRTC1_4BPP_UNORM_BLOCK_IMG => ⟨4, 4, 64⟩
  | VK_FORMAT_PVRTC2_4BPP_SRGB_BLOCK_IMG => ⟨4, 4, 64⟩
  | VK_FORMAT_PVRTC2_4BPP_UNORM_BLOCK_IMG => ⟨4, 4, 64⟩
  | VK_FORMAT_BC7_SRGB_BLOCK => ⟨4, 4, 128⟩
  | VK_FORMAT_BC7_UNORM_BLOCK => ⟨4, 4, 128⟩
  | VK_FORMAT_ASTC_4x4_SRGB_BLOCK => ⟨4, 4, 128⟩
  | VK_FORMAT_ASTC_4x4_UNORM_BLOCK => ⟨4, 4, 128⟩
  | VK_FORMAT_R5G6B5_UNORM_PACK16 => ⟨1, 1, 16⟩
  | VK_FORMAT_B5G6R5_UNORM_PACK16 => ⟨1, 1, 16⟩
  | VK_FORMAT_R4G4B4A4_UNORM_PACK16 => ⟨1, 1, 16⟩
  | VK_FORMAT_R8G8B8A8_SRGB => ⟨1, 1, 32⟩
  | VK_FORMAT_R8G8B8A8_UNORM => ⟨1, 1, 32⟩

/-- Modelled from the spec: whether the target is a block-compressed format
(the factory sets `isCompressed`, which the commit step copies). -/
def vkIsCompressed (vk : VkFormat) : Bool :=
  (vkFormatSize vk).blockWidth != 1

/-- Modelled from the spec: the DFD the container factory writes for a target
format (carrying its color model and transfer function); the commit step moves
it into the source container. -/
def vkFormatDFD (vk : VkFormat) : DFD :=
  { colorModel := KHR_DF_MODEL_RGBSDA
    transfer := if vk.isSrgb then KHR_DF_TRANSFER_SRGB else KHR_DF_TRANSFER_LINEAR
    sample0ChannelId := 0 }

/-- Image geometry at a mip level: `MAX(base >> level, 1)`. -/
def levelDim (base level : Nat) : Nat := max (base >>> level) 1

/-- Modelled from the spec: `ktxTexture_calcImageSize` / `ktxTexture2_GetImageSize`
(`texture2.c`, outside `src/`): bytes of one (layer, face, depth-slice) image
at a mip level, from the container's texel-block geometry, block grids being
`ceil(dim / blockDim)`. -/
def ktxTexture_calcImageSize (t : ktxTexture2) (level : Nat) : Nat :=
  let w := levelDim t.baseWidth level
  let h := levelDim t.baseHeight level
  let blocksX := getBlockWidth w t.formatSize.blockWidth
  let blocksY := getBlockHeight h t.formatSize.blockHeight
  blocksX * blocksY * (t.formatSize.blockSizeInBits / 8)

/-- Number of images in one mip level as both transcode loops compute it:
`numLayers * (numFaces * MAX(baseDepth >> level, 1))`. -/
def numImagesAt (t : ktxTexture2) (level : Nat) : Nat :=
  t.numLayers * (t.numFaces * levelDim t.baseDepth level)

/-- Modelled from the spec: one level's byte size as the container factory
computes it (images of the level times the per-image size). -/
def ktxTexture_calcLevelSize (t : ktxTexture2) (level : Nat) : Nat :=
  ktxTexture_calcImageSize t level * numImagesAt t level

/-- Sum of `KTX_PADN align (f l)` over levels `0 ≤ l < n`. -/
def paddedLevelSum (align : Nat) (f : Nat → Nat) : Nat → Nat
  | 0 => 0
  | n + 1 => paddedLevelSum align f n + KTX_PADN align (f n)

/-- Modelled from the spec: the data size the container factory allocates —
every level's size rounded up to the required level alignment (padding is
applied after each level, the last included, matching the level index the
factory pre-computes). -/
def ktxTexture_calcDataSize (t : ktxTexture2) : Nat :=
  paddedLevelSum t.requiredLevelAlignment (ktxTexture_calcLevelSize t) t.numLevels

/-- Modelled from the spec: the required level alignment of a format, the lcm
of its texel-block byte size with 4 (`ktxTexture2_calcRequiredLevelAlignment`,
outside `src/`). -/
def calcRequiredLevelAlignment (fs : ktxFormatSize) : Nat :=
  Nat.lcm (fs.blockSizeInBits / 8) 4

/-- Modelled from the spec: `ktxTexture2_Create` with
`KTX_TEXTURE_CREATE_ALLOC_STORAGE` (the container factory, outside `src/`):
same geometry as the source, the target format's tag, DFD, format size and
level alignment, storage allocated to the computed data size, and a level
index pre-sized to `numLevels`. -/
def mkPrototype (This : ktxTexture2) (vk : VkFormat) : ktxTexture2 :=
  let fs := vkFormatSize vk
  let t0 : ktxTexture2 :=
    { This with
      vkFormat := vk
      formatSize := fs
      requiredLevelAlignment := calcRequiredLevelAlignment fs
      supercompressionScheme := KTX_SS_NONE
      pDfd := vkFormatDFD vk
      isCompressed := vkIsCompressed vk
      numComponents := 0
      supercompressionGlobalData := none
      sgdByteLength := 0
      levelIndex := List.replicate This.numLevels default
      pendingData := none
      pData := none
      dataSize := 0 }
  let ds := ktxTexture_calcDataSize t0
  { t0 with dataSize := ds, pData := some (List.replicate ds 0) }

/-- Modelled from the spec: `ktxTexture2_LoadImageData(This, NULL, 0)`
(outside `src/`) completing a pending lazy load: the stream's bytes become the
container's data. -/
def materializeLoad (This : ktxTexture2) (d : List Nat) : ktxTexture2 :=
  { This with pData := some d, dataSize := d.length, pendingData := none }

/-- The external transcoding engine and the other external calls, as result
oracles: `etc1sImageResult i` is what `ktxBasisImageTranscoder::transcode_image`
returns for global image index `i`; `uastcImageResult level i` likewise for
`ktxUastcImageTranscoder::transcode_image`; `createResult` is what
`ktxTexture2_Create` returns; `loadResult` what `ktxTexture2_LoadImageData`
returns. -/
structure Engine where
  etc1sImageResult : Nat → KTX_error_code
  uastcImageResult : Nat → Nat → KTX_error_code
  createResult : KTX_error_code
  loadResult : KTX_error_code

/-- Observable calls into the external engine, for stating "the engine was
(not) invoked" claims. -/
inductive EngineCall where
  | decodePalettes
  | decodeTables
  | transcodeImage (image : Nat)
  | transcodeUastcImage (level image : Nat)
deriving DecidableEq, Repr

/-- `firstImages` of `ktxTexture2_transcodeEtc1s` (lines 471–482): prefix sums
of per-level image counts; `firstImages This This.numLevels` is the total
image count. -/
def firstImages (This : ktxTexture2) : Nat → Nat
  | 0 => 0
  | level + 1 =>
      firstImages This level +
        This.numLayers * This.numFaces * levelDim This.baseDepth level

/-- The BasisLZ global data of a container, as `transcodeEtc1s` reads it (the
caller has already checked it is attached). -/
def sgdOf (This : ktxTexture2) : SGD :=
  This.supercompressionGlobalData.getD default

/-- The image descriptor at a global image index (`BGD_IMAGE_DESCS` array). -/
def imageDescAt (This : ktxTexture2) (image : Nat) : ktxBasisImageDesc :=
  (sgdOf This).imageDescs.getD image default

/-- `BGD_TABLES_ADDR(0, bgdh, imageCount)` (macro from `basis_sgd.h`, modelled
from the spec's anchor-point layout): header, then the image-descriptor array,
then endpoints, then selectors. -/
def bgdTablesOffset (This : ktxTexture2) : Nat :=
  SIZEOF_BGDH + SIZEOF_IMAGE_DESC * firstImages This This.numLevels +
    (sgdOf This).header.endpointsByteLength +
    (sgdOf This).header.selectorsByteLength

/-- The inner image loop of `ktxTexture2_transcodeEtc1s` (lines 546–568) over
`cnt` images starting at global index `image`: for each image, with alpha
present, a zero alpha-slice offset or length returns `KTX_FILE_DATA_ERROR`
before the engine is invoked for it; otherwise the engine transcodes the image
and a failure aborts the loop.  Returns (result, accumulated `levelSizeOut`,
engine calls made). -/
def etc1sImagesLoop (eng : Engine) (hasAlpha : Bool)
    (descs : Nat → ktxBasisImageDesc) (imgSize : Nat) :
    Nat → Nat → KTX_error_code × Nat × List EngineCall
  | _, 0 => (KTX_SUCCESS, 0, [])
  | image, cnt + 1 =>
    if hasAlpha &&
        ((descs image).alphaSliceByteOffset == 0 ||
         (descs image).alphaSliceByteLength == 0) then
      (KTX_FILE_DATA_ERROR, 0, [])
    else
      let r := eng.etc1sImageResult image
      if r ≠ KTX_SUCCESS then (r, 0, [EngineCall.transcodeImage image])
      else
        let t := etc1sImagesLoop eng hasAlpha descs imgSize (image + 1) cnt
        (t.1, imgSize + t.2.1, EngineCall.transcodeImage image :: t.2.2)

/-- One level's image loop, with the values `transcodeEtc1s` feeds it: images
`firstImages level ..< + numImages`, per-image output size queried from the
prototype. -/
def etc1sLevelStep (eng : Engine) (This proto : ktxTexture2) (hasAlpha : Bool)
    (level : Nat) : KTX_error_code × Nat × List EngineCall :=
  etc1sImagesLoop eng hasAlpha (imageDescAt This)
    (ktxTexture_calcImageSize proto level)
    (firstImages This level) (numImagesAt This level)

/-- The level loop of `ktxTexture2_transcodeEtc1s` (lines 525–577), iterating
from level `k` down to level 0: each level's images are transcoded, its level
index entry is written as (byteOffset = running write offset, byteLength =
uncompressedByteLength = level output size), and the running offset is padded
to the required level alignment before the next level.  Any failure aborts
immediately with the failing result. -/
def etc1sLevelLoop (eng : Engine) (This proto : ktxTexture2) (hasAlpha : Bool) :
    Nat → List ktxLevelIndexEntry → Nat →
    KTX_error_code × List ktxLevelIndexEntry × List EngineCall
  | 0, idx, W =>
    let st := etc1sLevelStep eng This proto hasAlpha 0
    if st.1 = KTX_SUCCESS then
      (KTX_SUCCESS, idx.set 0 ⟨W, st.2.1, st.2.1⟩, st.2.2)
    else (st.1, idx, st.2.2)
  | k + 1, idx, W =>
    let st := etc1sLevelStep eng This proto hasAlpha (k + 1)
    if st.1 = KTX_SUCCESS then
      let t := etc1sLevelLoop eng This proto hasAlpha k
        (idx.set (k + 1) ⟨W, st.2.1, st.2.1⟩)
        (KTX_PADN proto.requiredLevelAlignment (W + st.2.1))
      (t.1, t.2.1, st.2.2 ++ t.2.2)
    else (st.1, idx, st.2.2)

/-- `ktxTexture2_transcodeEtc1s` (lines 444–584): validate the global-data
header (zero sub-block lengths, then tables offset + length against the
declared global-data byte length), returning `KTX_FILE_DATA_ERROR` before any
engine call on violation; then decode palettes and tables once and run the
level loop.  Returns (result, prototype level index, engine calls). -/
def ktxTexture2_transcodeEtc1s (eng : Engine) (This : ktxTexture2)
    (hasAlpha : Bool) (proto : ktxTexture2) :
    KTX_error_code × List ktxLevelIndexEntry × List EngineCall :=
  let bgdh := (sgdOf This).header
  if bgdh.endpointsByteLength = 0 ∨ bgdh.selectorsByteLength = 0 ∨
      bgdh.tablesByteLength = 0 then
    (KTX_FILE_DATA_ERROR, proto.levelIndex, [])
  else if bgdTablesOffset This + bgdh.tablesByteLength > This.sgdByteLength then
    (KTX_FILE_DATA_ERROR, proto.levelIndex, [])
  else
    let decodes := [EngineCall.decodePalettes, EngineCall.decodeTables]
    if This.numLevels = 0 then (KTX_SUCCESS, proto.levelIndex, decodes)
    else
      let t := etc1sLevelLoop eng This proto hasAlpha (This.numLevels - 1)
        proto.levelIndex 0
      (t.1, t.2.1, decodes ++ t.2.2)

/-- The inner image loop of `ktxTexture2_transcodeUastc` (lines 631–645) over
`cnt` images of a level: the engine is invoked per image but its result is
assigned to `result` and never tested, so the loop always runs to completion;
returns (accumulated `levelSizeOut`, engine calls). -/
def uastcImagesLoop (eng : Engine) (level imgSize : Nat) :
    Nat → Nat → Nat × List EngineCall
  | _, 0 => (0, [])
  | image, cnt + 1 =>
    let _r := eng.uastcImageResult level image
    let t := uastcImagesLoop eng level imgSize (image + 1) cnt
    (imgSize + t.1, EngineCall.transcodeUastcImage level image :: t.2)

/-- The level loop of `ktxTexture2_transcodeUastc` (lines 604–651): level
index entries are written with the running offset, which advances by the level
size with no inter-level padding (the single `_KTX_PADN` sits after the loop
and its result is unused). -/
def uastcLevelLoop (eng : Engine) (This proto : ktxTexture2) :
    Nat → List ktxLevelIndexEntry → Nat →
    List ktxLevelIndexEntry × List EngineCall
  | 0, idx, W =>
    let st := uastcImagesLoop eng 0 (ktxTexture_calcImageSize proto 0) 0
      (numImagesAt This 0)
    (idx.set 0 ⟨W, st.1, st.1⟩, st.2)
  | k + 1, idx, W =>
    let st := uastcImagesLoop eng (k + 1) (ktxTexture_calcImageSize proto (k + 1))
      0 (numImagesAt This (k + 1))
    let t := uastcLevelLoop eng This proto k (idx.set (k + 1) ⟨W, st.1, st.1⟩)
      (W + st.1)
    (t.1, st.2 ++ t.2)

/-- `ktxTexture2_transcodeUastc` (lines 587–656): runs the level loop and
returns `KTX_SUCCESS` unconditionally — per-image engine results are never
checked. -/
def ktxTexture2_transcodeUastc (eng : Engine) (This : ktxTexture2)
    (hasAlpha : Bool) (proto : ktxTexture2) :
    KTX_error_code × List ktxLevelIndexEntry × List EngineCall :=
  if This.numLevels = 0 then (KTX_SUCCESS, proto.levelIndex, [])
  else
    let t := uastcLevelLoop eng This proto (This.numLevels - 1)
      proto.levelIndex 0
    (KTX_SUCCESS, t.1, t.2)

/-- Transcode flag bits (`ktx_transcode_flag_bits_e`, modelled from the spec
as named bits): the power-of-two-upscale request and the
alpha-to-opaque-formats request this file tests, plus the remaining bits. -/
structure ktx_transcode_flags where
  pvrtcDecodeToNextPow2 : Bool
  transcodeAlphaDataToOpaqueFormats : Bool
  otherBits : Nat
deriving DecidableEq, Repr, Inhabited

/-- Outcome of one `ktxTexture2_TranscodeBasis` call: the returned error code,
the source container afterwards, the engine calls made, whether
`basisu_transcoder_init()` ran during this call, and the value of the
function-local `static bool transcoderInitialized` afterwards (the source
never assigns it, so it is returned unchanged). -/
structure TranscodeOutcome where
  result : KTX_error_code
  texture : ktxTexture2
  trace : List EngineCall
  initCalled : Bool
  initFlagAfter : Bool
deriving DecidableEq, Repr

/-- The commit step of `ktxTexture2_TranscodeBasis` (lines 342–365): on
success copy format size, vkFormat, isCompressed, clear the supercompression
scheme, copy the required level alignment and level index, and move DFD, data
and data size from the prototype. -/
def commitTranscodeResult (This proto : ktxTexture2) (vk : VkFormat)
    (idx : List ktxLevelIndexEntry) : ktxTexture2 :=
  { This with
    formatSize := proto.formatSize
    vkFormat := vk
    isCompressed := proto.isCompressed
    supercompressionScheme := KTX_SS_NONE
    requiredLevelAlignment := proto.requiredLevelAlignment
    levelIndex := idx
    pDfd := proto.pDfd
    pData := proto.pData
    dataSize := proto.dataSize }

/-- Lines 327–367 of `ktxTexture2_TranscodeBasis`: record that
`basisu_transcoder_init` runs whenever the (never set) static flag is false,
dispatch on the supercompression scheme, and commit on success or leave the
source container as it stands on failure. -/
def runTranscode (eng : Engine) (tex proto : ktxTexture2) (vk : VkFormat)
    (hasAlpha : Bool) (initFlag : Bool) : TranscodeOutcome :=
  let initCalled := !initFlag
  let t :=
    if tex.supercompressionScheme = KTX_SS_BASIS_UNIVERSAL then
      ktxTexture2_transcodeEtc1s eng tex hasAlpha proto
    else
      ktxTexture2_transcodeUastc eng tex hasAlpha proto
  if t.1 = KTX_SUCCESS then
    ⟨KTX_SUCCESS, commitTranscodeResult tex proto vk t.2.1, t.2.2, initCalled,
      initFlag⟩
  else ⟨t.1, tex, t.2.2, initCalled, initFlag⟩

/-- `ktxTexture2_TranscodeBasis` (lines 159–368): precondition checks in
source order (transcodable format; attached global data for BasisLZ; the
pow2-upscale flag unsupported; PVRTC1 targets need power-of-two base
dimensions), ambiguous-format resolution, vkFormat mapping, prototype
creation, lazy-load completion, transcoder init, dispatch and commit. -/
def ktxTexture2_TranscodeBasis (eng : Engine) (This : ktxTexture2)
    (outputFormat : ktx_transcode_fmt) (transcodeFlags : ktx_transcode_flags)
    (initFlag : Bool) : TranscodeOutcome :=
  let noEffect : KTX_error_code → TranscodeOutcome :=
    fun e => ⟨e, This, [], false, initFlag⟩
  if This.pDfd.colorModel ≠ KHR_DF_MODEL_UASTC ∧
      This.supercompressionScheme ≠ KTX_SS_BASIS_UNIVERSAL then
    noEffect KTX_INVALID_OPERATION
  else if This.supercompressionScheme = KTX_SS_BASIS_UNIVERSAL ∧
      (This.supercompressionGlobalData = none ∨ This.sgdByteLength = 0) then
    noEffect KTX_INVALID_OPERATION
  else if transcodeFlags.pvrtcDecodeToNextPow2 then
    noEffect KTX_UNSUPPORTED_FEATURE
  else if (outputFormat = KTX_TTF_PVRTC1_4_RGB ∨
      outputFormat = KTX_TTF_PVRTC1_4_RGBA) ∧
      (isPow2 This.baseWidth = false ∨ isPow2 This.baseHeight = false) then
    noEffect KTX_INVALID_OPERATION
  else
    let srgb := This.pDfd.transfer == KHR_DF_TRANSFER_SRGB
    let hasAlpha := transcodeHasAlpha This
    match vkFormatFor srgb (resolveOutputFormat hasAlpha outputFormat) with
    | none => noEffect KTX_INVALID_VALUE
    | some vk =>
      if eng.createResult ≠ KTX_SUCCESS then noEffect eng.createResult
      else
        let proto := mkPrototype This vk
        match This.pData with
        | some _ => runTranscode eng This proto vk hasAlpha initFlag
        | none =>
          match This.pendingData with
          | none => noEffect KTX_INVALID_OPERATION
          | some d =>
            if eng.loadResult ≠ KTX_SUCCESS then noEffect eng.loadResult
            else runTranscode eng (materializeLoad This d) proto vk hasAlpha
              initFlag

/-- `List.set` then `getD` at the set position. -/
theorem getD_set_self {α : Type} :
    ∀ (l : List α) (i : Nat) (a d : α), i < l.length →
      (l.set i a).getD i d = a := by
  intro l
  induction l with
  | nil => intro i a d h; simp at h
  | cons x xs ih =>
    intro i a d h
    cases i with
    | zero => rfl
    | succ i => exact ih i a d (by simpa using h)

/-- `List.set` then `getD` away from the set position. -/
theorem getD_set_ne {α : Type} :
    ∀ (l : List α) (i j : Nat) (a d : α), i ≠ j →
      (l.set i a).getD j d = l.getD j d := by
  intro l
  induction l with
  | nil => intro i j a d _; rfl
  | cons x xs ih =>
    intro i j a d hij
    cases i with
    | zero =>
      cases j with
      | zero => exact absurd rfl hij
      | succ j => rfl
    | succ i =>
      cases j with
      | zero => rfl
      | succ j => exact ih i j a d (fun h => hij (by rw [h]))

/-- Length is preserved by `List.set`. -/
theorem length_set_eq {α : Type} (l : List α) (i : Nat) (a : α) :
    (l.set i a).length = l.length := by
  simp

/-- `getD` on `List.replicate` is the replicated element. -/
theorem getD_replicate {α : Type} :
    ∀ (n i : Nat) (a d : α), i < n → ((List.replicate n a).getD i d) = a := by
  intro n
  induction n with
  | zero => intro i a d h; omega
  | succ n ih =>
    intro i a d h
    cases i with
    | zero => rfl
    | succ i => exact ih i a d (by omega)

/-- Level output size as both transcode loops accumulate it: image count of
the level (from the source geometry) times the per-image size of the
prototype's format. -/
def levelSizeOut (This proto : ktxTexture2) (level : Nat) : Nat :=
  numImagesAt This level * ktxTexture_calcImageSize proto level

/-- Pointwise-equal level size functions give equal padded sums. -/
theorem paddedLevelSum_congr (a : Nat) (f g : Nat → Nat) :
    ∀ n, (∀ l, l < n → f l = g l) → paddedLevelSum a f n = paddedLevelSum a g n := by
  intro n
  induction n with
  | zero => intro _; rfl
  | succ n ih =>
    intro h
    simp only [paddedLevelSum]
    rw [ih (fun l hl => h l (by omega)), h n (by omega)]

/-- On success, the ETC1S image loop has accumulated exactly
`count * imgSize` output bytes. -/
theorem etc1sImagesLoop_success_size (eng : Engine) (ha : Bool)
    (descs : Nat → ktxBasisImageDesc) (imgSize : Nat) :
    ∀ (cnt image : Nat),
      (etc1sImagesLoop eng ha descs imgSize image cnt).1 = KTX_SUCCESS →
      (etc1sImagesLoop eng ha descs imgSize image cnt).2.1 = cnt * imgSize := by
  intro cnt
  induction cnt with
  | zero => intro image _; simp [etc1sImagesLoop]
  | succ cnt ih =>
    intro image h
    simp only [etc1sImagesLoop] at h ⊢
    by_cases hbad : (ha &&
        ((descs image).alphaSliceByteOffset == 0 ||
         (descs image).alphaSliceByteLength == 0)) = true
    · rw [if_pos hbad] at h; exact absurd h (by decide)
    · rw [if_neg hbad] at h ⊢
      by_cases hr : eng.etc1sImageResult image ≠ KTX_SUCCESS
      · rw [if_pos hr] at h; exact absurd h hr
      · rw [if_neg hr] at h ⊢
        have := ih (image + 1) h
        simp only [this]
        ring

/-- Every per-image engine call the ETC1S image loop makes is for an image in
the iterated range. -/
theorem etc1sImagesLoop_calls_range (eng : Engine) (ha : Bool)
    (descs : Nat → ktxBasisImageDesc) (imgSize : Nat) :
    ∀ (cnt image j : Nat),
      EngineCall.transcodeImage j ∈
        (etc1sImagesLoop eng ha descs imgSize image cnt).2.2 →
      image ≤ j ∧ j < image + cnt := by
  intro cnt
  induction cnt with
  | zero => intro image j h; simp [etc1sImagesLoop] at h
  | succ cnt ih =>
    intro image j h
    simp only [etc1sImagesLoop] at h
    by_cases hbad : (ha &&
        ((descs image).alphaSliceByteOffset == 0 ||
         (descs image).alphaSliceByteLength == 0)) = true
    · rw [if_pos hbad] at h; simp at h
    · rw [if_neg hbad] at h
      by_cases hr : eng.etc1sImageResult image ≠ KTX_SUCCESS
      · rw [if_pos hr] at h
        simp at h
        omega
      · rw [if_neg hr] at h
        simp only [List.mem_cons, EngineCall.transcodeImage.injEq] at h
        rcases h with h | h
        · omega
        · have := ih (image + 1) j h
          omega

/-- If an iterated image has a zero alpha slice offset or length (with alpha
present), the ETC1S image loop does not succeed, and the engine is never
invoked for that image. -/
theorem etc1sImagesLoop_bad_image (eng : Engine)
    (descs : Nat → ktxBasisImageDesc) (imgSize : Nat) :
    ∀ (cnt image i : Nat), image ≤ i → i < image + cnt →
      ((descs i).alphaSliceByteOffset = 0 ∨ (descs i).alphaSliceByteLength = 0) →
      (etc1sImagesLoop eng true descs imgSize image cnt).1 ≠ KTX_SUCCESS ∧
      EngineCall.transcodeImage i ∉
        (etc1sImagesLoop eng true descs imgSize image cnt).2.2 := by
  intro cnt
  induction cnt with
  | zero => intro image i h1 h2 _; omega
  | succ cnt ih =>
    intro image i h1 h2 hbad
    simp only [etc1sImagesLoop]
    by_cases hb : (true &&
        ((descs image).alphaSliceByteOffset == 0 ||
         (descs image).alphaSliceByteLength == 0)) = true
    · rw [if_pos hb]
      exact ⟨by decide, by simp⟩
    · rw [if_neg hb]
      have hne : i ≠ image := by
        intro h
        subst h
        simp only [Bool.true_and, Bool.or_eq_true, beq_iff_eq] at hb
        exact hb hbad
      by_cases hr : eng.etc1sImageResult image ≠ KTX_SUCCESS
      · rw [if_pos hr]
        refine ⟨hr, ?_⟩
        simp only [List.mem_singleton, EngineCall.transcodeImage.injEq]
        exact hne
      · rw [if_neg hr]
        have := ih (image + 1) i (by omega) (by omega) hbad
        refine ⟨this.1, ?_⟩
        simp only [List.mem_cons, EngineCall.transcodeImage.injEq]
        rintro (h | h)
        · exact hne h
        · exact this.2 h

/-- With an engine that succeeds on every image, the ETC1S image loop either
succeeds or fails with `KTX_FILE_DATA_ERROR` (the alpha-descriptor check). -/
theorem etc1sImagesLoop_engineOk_result (eng : Engine) (ha : Bool)
    (descs : Nat → ktxBasisImageDesc) (imgSize : Nat)
    (hok : ∀ j, eng.etc1sImageResult j = KTX_SUCCESS) :
    ∀ (cnt image : Nat),
      (etc1sImagesLoop eng ha descs imgSize image cnt).1 = KTX_SUCCESS ∨
      (etc1sImagesLoop eng ha descs imgSize image cnt).1 = KTX_FILE_DATA_ERROR := by
  intro cnt
  induction cnt with
  | zero => intro image; left; rfl
  | succ cnt ih =>
    intro image
    simp only [etc1sImagesLoop]
    by_cases hb : (ha &&
        ((descs image).alphaSliceByteOffset == 0 ||
         (descs image).alphaSliceByteLength == 0)) = true
    · rw [if_pos hb]; right; rfl
    · rw [if_neg hb]
      rw [if_neg (by simp [hok image])]
      exact ih (image + 1)

/-- With an always-succeeding engine, a bad alpha descriptor in range makes
the ETC1S image loop fail with exactly `KTX_FILE_DATA_ERROR`. -/
theorem etc1sImagesLoop_bad_engineOk (eng : Engine)
    (descs : Nat → ktxBasisImageDesc) (imgSize : Nat)
    (hok : ∀ j, eng.etc1sImageResult j = KTX_SUCCESS) :
    ∀ (cnt image i : Nat), image ≤ i → i < image + cnt →
      ((descs i).alphaSliceByteOffset = 0 ∨ (descs i).alphaSliceByteLength = 0) →
      (etc1sImagesLoop eng true descs imgSize image cnt).1 = KTX_FILE_DATA_ERROR := by
  intro cnt image i h1 h2 hbad
  rcases etc1sImagesLoop_engineOk_result eng true descs imgSize hok cnt image with
    h | h
  · exact absurd h
      (etc1sImagesLoop_bad_image eng descs imgSize cnt image i h1 h2 hbad).1
  · exact h

/-- The UASTC image loop accumulates exactly `count * imgSize` output bytes
(it never aborts). -/
theorem uastcImagesLoop_size (eng : Engine) (level imgSize : Nat) :
    ∀ (cnt image : Nat),
      (uastcImagesLoop eng level imgSize image cnt).1 = cnt * imgSize := by
  intro cnt
  induction cnt with
  | zero => intro image; simp [uastcImagesLoop]
  | succ cnt ih =>
    intro image
    simp only [uastcImagesLoop, ih (image + 1)]
    ring

/-- `firstImages` advances by the per-level image count. -/
theorem firstImages_succ (This : ktxTexture2) (level : Nat) :
    firstImages This (level + 1) = firstImages This level + numImagesAt This level := by
  simp [firstImages, numImagesAt, Nat.mul_assoc]

/-- `firstImages` is monotone. -/
theorem firstImages_mono (This : ktxTexture2) :
    ∀ {l l' : Nat}, l ≤ l' → firstImages This l ≤ firstImages This l' := by
  intro l l' h
  induction h with
  | refl => exact Nat.le_refl _
  | @step m _ ih =>
    calc firstImages This l ≤ firstImages This m := ih
      _ ≤ firstImages This (m + 1) := by rw [firstImages_succ]; omega

/-- Characterization of a successful run of the ETC1S level loop from level
`k` down to 0: entries above `k` are untouched, entry `k` sits at the starting
write offset, all processed entries carry the level size as both lengths, and
each lower level's offset is the padded end of the level above it. -/
theorem etc1sLevelLoop_spec (eng : Engine) (This proto : ktxTexture2)
    (ha : Bool) :
    ∀ (k : Nat) (idx : List ktxLevelIndexEntry) (W : Nat), k < idx.length →
      (etc1sLevelLoop eng This proto ha k idx W).1 = KTX_SUCCESS →
      ((etc1sLevelLoop eng This proto ha k idx W).2.1.length = idx.length ∧
       (∀ j, k < j →
         (etc1sLevelLoop eng This proto ha k idx W).2.1.getD j default =
           idx.getD j default) ∧
       (etc1sLevelLoop eng This proto ha k idx W).2.1.getD k default =
         ⟨W, levelSizeOut This proto k, levelSizeOut This proto k⟩ ∧
       (∀ j, j ≤ k →
         ((etc1sLevelLoop eng This proto ha k idx W).2.1.getD j default).byteLength =
           levelSizeOut This proto j ∧
         ((etc1sLevelLoop eng This proto ha k idx W).2.1.getD j default).uncompressedByteLength =
           levelSizeOut This proto j) ∧
       (∀ j, j < k →
         ((etc1sLevelLoop eng This proto ha k idx W).2.1.getD j default).byteOffset =
           KTX_PADN proto.requiredLevelAlignment
             (((etc1sLevelLoop eng This proto ha k idx W).2.1.getD (j+1) default).byteOffset +
              ((etc1sLevelLoop eng This proto ha k idx W).2.1.getD (j+1) default).byteLength))) := by
  intro k
  induction k with
  | zero =>
    intro idx W hlen hs
    simp only [etc1sLevelLoop] at hs ⊢
    by_cases h0 : (etc1sLevelStep eng This proto ha 0).1 = KTX_SUCCESS
    · rw [if_pos h0] at hs ⊢
      have hsz : (etc1sLevelStep eng This proto ha 0).2.1 =
          levelSizeOut This proto 0 := by
        have := etc1sImagesLoop_success_size eng ha (imageDescAt This)
          (ktxTexture_calcImageSize proto 0) (numImagesAt This 0)
          (firstImages This 0) h0
        simpa [levelSizeOut, etc1sLevelStep] using this
      refine ⟨by simp, ?_, ?_, ?_, ?_⟩
      · intro j hj
        exact getD_set_ne idx 0 j _ default (by omega)
      · rw [hsz, getD_set_self idx 0 _ default hlen]
      · intro j hj
        have : j = 0 := by omega
        subst this
        rw [hsz, getD_set_self idx 0 _ default hlen]
        exact ⟨rfl, rfl⟩
      · intro j hj; omega
    · rw [if_neg h0] at hs
      exact absurd hs h0
  | succ k ih =>
    intro idx W hlen hs
    simp only [etc1sLevelLoop] at hs ⊢
    by_cases h0 : (etc1sLevelStep eng This proto ha (k + 1)).1 = KTX_SUCCESS
    · rw [if_pos h0] at hs ⊢
      have hsz : (etc1sLevelStep eng This proto ha (k + 1)).2.1 =
          levelSizeOut This proto (k + 1) := by
        have := etc1sImagesLoop_success_size eng ha (imageDescAt This)
          (ktxTexture_calcImageSize proto (k + 1)) (numImagesAt This (k + 1))
          (firstImages This (k + 1)) h0
        simpa [levelSizeOut, etc1sLevelStep] using this
      set e : ktxLevelIndexEntry :=
        ⟨W, (etc1sLevelStep eng This proto ha (k + 1)).2.1,
         (etc1sLevelStep eng This proto ha (k + 1)).2.1⟩ with he
      set idx2 := idx.set (k + 1) e with hidx2
      set W2 := KTX_PADN proto.requiredLevelAlignment
        (W + (etc1sLevelStep eng This proto ha (k + 1)).2.1) with hW2
      have hlen2 : k < idx2.length := by
        rw [hidx2]; simp; omega
      have hs2 : (etc1sLevelLoop eng This proto ha k idx2 W2).1 = KTX_SUCCESS := hs
      obtain ⟨ihlen, ihhigh, ihtop, ihlens, ihchain⟩ := ih idx2 W2 hlen2 hs2
      have hk1 : (etc1sLevelLoop eng This proto ha k idx2 W2).2.1.getD (k + 1)
          default = e := by
        rw [ihhigh (k + 1) (by omega), hidx2]
        exact getD_set_self idx (k + 1) e default hlen
      refine ⟨by rw [ihlen, hidx2]; simp, ?_, ?_, ?_, ?_⟩
      · intro j hj
        rw [ihhigh j (by omega), hidx2]
        exact getD_set_ne idx (k + 1) j e default (by omega)
      · rw [hk1, he, hsz]
      · intro j hj
        rcases Nat.lt_or_ge j (k + 1) with hlt | hge
        · exact ihlens j (by omega)
        · have : j = k + 1 := by omega
          subst this
          rw [hk1, he, hsz]
          exact ⟨rfl, rfl⟩
      · intro j hj
        rcases Nat.lt_or_ge j k with hlt | hge
        · exact ihchain j hlt
        · have : j = k := by omega
          subst this
          rw [ihtop, hk1, he, hW2, hsz]
    · rw [if_neg h0] at hs
      exact absurd hs h0

/-- Characterization of the UASTC level loop from level `k` down to 0: same
shape as the ETC1S loop except that the running write offset advances without
inter-level padding. -/
theorem uastcLevelLoop_spec (eng : Engine) (This proto : ktxTexture2) :
    ∀ (k : Nat) (idx : List ktxLevelIndexEntry) (W : Nat), k < idx.length →
      ((uastcLevelLoop eng This proto k idx W).1.length = idx.length ∧
       (∀ j, k < j →
         (uastcLevelLoop eng This proto k idx W).1.getD j default =
           idx.getD j default) ∧
       (uastcLevelLoop eng This proto k idx W).1.getD k default =
         ⟨W, levelSizeOut This proto k, levelSizeOut This proto k⟩ ∧
       (∀ j, j ≤ k →
         ((uastcLevelLoop eng This proto k idx W).1.getD j default).byteLength =
           levelSizeOut This proto j ∧
         ((uastcLevelLoop eng This proto k idx W).1.getD j default).uncompressedByteLength =
           levelSizeOut This proto j) ∧
       (∀ j, j < k →
         ((uastcLevelLoop eng This proto k idx W).1.getD j default).byteOffset =
           ((uastcLevelLoop eng This proto k idx W).1.getD (j+1) default).byteOffset +
             ((uastcLevelLoop eng This proto k idx W).1.getD (j+1) default).byteLength)) := by
  intro k
  induction k with
  | zero =>
    intro idx W hlen
    simp only [uastcLevelLoop]
    have hsz : (uastcImagesLoop eng 0 (ktxTexture_calcImageSize proto 0) 0
        (numImagesAt This 0)).1 = levelSizeOut This proto 0 := by
      rw [uastcImagesLoop_size, levelSizeOut]
    refine ⟨by simp, ?_, ?_, ?_, ?_⟩
    · intro j hj
      exact getD_set_ne idx 0 j _ default (by omega)
    · rw [hsz, getD_set_self idx 0 _ default hlen]
    · intro j hj
      have : j = 0 := by omega
      subst this
      rw [hsz, getD_set_self idx 0 _ default hlen]
      exact ⟨rfl, rfl⟩
    · intro j hj; omega
  | succ k ih =>
    intro idx W hlen
    simp only [uastcLevelLoop]
    have hsz : (uastcImagesLoop eng (k + 1)
        (ktxTexture_calcImageSize proto (k + 1)) 0 (numImagesAt This (k + 1))).1 =
        levelSizeOut This proto (k + 1) := by
      rw [uastcImagesLoop_size, levelSizeOut]
    set e : ktxLevelIndexEntry :=
      ⟨W, (uastcImagesLoop eng (k + 1) (ktxTexture_calcImageSize proto (k + 1)) 0
           (numImagesAt This (k + 1))).1,
       (uastcImagesLoop eng (k + 1) (ktxTexture_calcImageSize proto (k + 1)) 0
           (numImagesAt This (k + 1))).1⟩ with he
    set idx2 := idx.set (k + 1) e with hidx2
    set W2 := W + (uastcImagesLoop eng (k + 1)
      (ktxTexture_calcImageSize proto (k + 1)) 0 (numImagesAt This (k + 1))).1
      with hW2
    have hlen2 : k < idx2.length := by
      rw [hidx2]; simp; omega
    obtain ⟨ihlen, ihhigh, ihtop, ihlens, ihchain⟩ := ih idx2 W2 hlen2
    have hk1 : (uastcLevelLoop eng This proto k idx2 W2).1.getD (k + 1)
        default = e := by
      rw [ihhigh (k + 1) (by omega), hidx2]
      exact getD_set_self idx (k + 1) e default hlen
    refine ⟨by rw [ihlen, hidx2]; simp, ?_, ?_, ?_, ?_⟩
    · intro j hj
      rw [ihhigh j (by omega), hidx2]
      exact getD_set_ne idx (k + 1) j e default (by omega)
    · rw [hk1, he, hsz]
    · intro j hj
      rcases Nat.lt_or_ge j (k + 1) with hlt | hge
      · exact ihlens j (by omega)
      · have : j = k + 1 := by omega
        subst this
        rw [hk1, he, hsz]
        exact ⟨rfl, rfl⟩
    · intro j hj
      rcases Nat.lt_or_ge j k with hlt | hge
      · exact ihchain j hlt
      · have : j = k := by omega
        subst this
        rw [ihtop, hk1, he, hW2, hsz]

/-- If some level `l ≤ k` contains an image with a bad alpha descriptor (with
alpha present), the ETC1S level loop does not succeed. -/
theorem etc1sLevelLoop_bad_not_success (eng : Engine) (This proto : ktxTexture2)
    (l i : Nat)
    (hlo : firstImages This l ≤ i) (hhi : i < firstImages This l + numImagesAt This l)
    (hbad : (imageDescAt This i).alphaSliceByteOffset = 0 ∨
            (imageDescAt This i).alphaSliceByteLength = 0) :
    ∀ (k : Nat) (idx : List ktxLevelIndexEntry) (W : Nat), l ≤ k →
      (etc1sLevelLoop eng This proto true k idx W).1 ≠ KTX_SUCCESS := by
  intro k
  induction k with
  | zero =>
    intro idx W hk
    have hl : l = 0 := by omega
    subst hl
    simp only [etc1sLevelLoop]
    have := (etc1sImagesLoop_bad_image eng (imageDescAt This)
      (ktxTexture_calcImageSize proto 0) (numImagesAt This 0)
      (firstImages This 0) i hlo hhi hbad).1
    by_cases h0 : (etc1sLevelStep eng This proto true 0).1 = KTX_SUCCESS
    · exact absurd h0 (by simpa [etc1sLevelStep] using this)
    · rw [if_neg h0]; exact h0
  | succ k ih =>
    intro idx W hk
    simp only [etc1sLevelLoop]
    by_cases h0 : (etc1sLevelStep eng This proto true (k + 1)).1 = KTX_SUCCESS
    · rw [if_pos h0]
      rcases Nat.lt_or_ge l (k + 1) with hlt | hge
      · exact ih _ _ (by omega)
      · have hl : l = k + 1 := by omega
        subst hl
        have := (etc1sImagesLoop_bad_image eng (imageDescAt This)
          (ktxTexture_calcImageSize proto (k + 1)) (numImagesAt This (k + 1))
          (firstImages This (k + 1)) i hlo hhi hbad).1
        exact absurd h0 (by simpa [etc1sLevelStep] using this)
    · rw [if_neg h0]; exact h0

/-- With an always-succeeding engine, the ETC1S level loop either succeeds or
fails with `KTX_FILE_DATA_ERROR`. -/
theorem etc1sLevelLoop_engineOk (eng : Engine) (This proto : ktxTexture2)
    (ha : Bool) (hok : ∀ j, eng.etc1sImageResult j = KTX_SUCCESS) :
    ∀ (k : Nat) (idx : List ktxLevelIndexEntry) (W : Nat),
      (etc1sLevelLoop eng This proto ha k idx W).1 = KTX_SUCCESS ∨
      (etc1sLevelLoop eng This proto ha k idx W).1 = KTX_FILE_DATA_ERROR := by
  intro k
  induction k with
  | zero =>
    intro idx W
    simp only [etc1sLevelLoop]
    by_cases h0 : (etc1sLevelStep eng This proto ha 0).1 = KTX_SUCCESS
    · rw [if_pos h0]; left; rfl
    · rw [if_neg h0]
      rcases etc1sImagesLoop_engineOk_result eng ha (imageDescAt This)
        (ktxTexture_calcImageSize proto 0) hok (numImagesAt This 0)
        (firstImages This 0) with h | h
      · exact absurd (by simpa [etc1sLevelStep] using h) h0
      · right; simpa [etc1sLevelStep] using h
  | succ k ih =>
    intro idx W
    simp only [etc1sLevelLoop]
    by_cases h0 : (etc1sLevelStep eng This proto ha (k + 1)).1 = KTX_SUCCESS
    · rw [if_pos h0]
      exact ih _ _
    · rw [if_neg h0]
      rcases etc1sImagesLoop_engineOk_result eng ha (imageDescAt This)
        (ktxTexture_calcImageSize proto (k + 1)) hok (numImagesAt This (k + 1))
        (firstImages This (k + 1)) with h | h
      · exact absurd (by simpa [etc1sLevelStep] using h) h0
      · right; simpa [etc1sLevelStep] using h

/-- Every per-image engine call the ETC1S level loop makes comes from some
processed level's image loop. -/
theorem etc1sLevelLoop_calls (eng : Engine) (This proto : ktxTexture2)
    (ha : Bool) :
    ∀ (k : Nat) (idx : List ktxLevelIndexEntry) (W : Nat) (i : Nat),
      EngineCall.transcodeImage i ∈ (etc1sLevelLoop eng This proto ha k idx W).2.2 →
      ∃ j, j ≤ k ∧
        EngineCall.transcodeImage i ∈ (etc1sLevelStep eng This proto ha j).2.2 := by
  intro k
  induction k with
  | zero =>
    intro idx W i h
    simp only [etc1sLevelLoop] at h
    by_cases h0 : (etc1sLevelStep eng This proto ha 0).1 = KTX_SUCCESS
    · rw [if_pos h0] at h
      exact ⟨0, Nat.le_refl 0, h⟩
    · rw [if_neg h0] at h
      exact ⟨0, Nat.le_refl 0, h⟩
  | succ k ih =>
    intro idx W i h
    simp only [etc1sLevelLoop] at h
    by_cases h0 : (etc1sLevelStep eng This proto ha (k + 1)).1 = KTX_SUCCESS
    · rw [if_pos h0] at h
      rcases List.mem_append.mp h with h | h
      · exact ⟨k + 1, Nat.le_refl _, h⟩
      · obtain ⟨j, hj, hmem⟩ := ih _ _ i h
        exact ⟨j, by omega, hmem⟩
    · rw [if_neg h0] at h
      exact ⟨k + 1, Nat.le_refl _, h⟩

/-- A bad-alpha image in a processed level is never handed to the engine by
the ETC1S level loop. -/
theorem etc1sLevelLoop_bad_not_called (eng : Engine) (This proto : ktxTexture2)
    (l i : Nat)
    (hlo : firstImages This l ≤ i) (hhi : i < firstImages This l + numImagesAt This l)
    (hbad : (imageDescAt This i).alphaSliceByteOffset = 0 ∨
            (imageDescAt This i).alphaSliceByteLength = 0)
    (k : Nat) (idx : List ktxLevelIndexEntry) (W : Nat) (hk : l ≤ k) :
    EngineCall.transcodeImage i ∉ (etc1sLevelLoop eng This proto true k idx W).2.2 := by
  intro hmem
  obtain ⟨j, hj, hstep⟩ := etc1sLevelLoop_calls eng This proto true k idx W i hmem
  have hrange := etc1sImagesLoop_calls_range eng true (imageDescAt This)
    (ktxTexture_calcImageSize proto j) (numImagesAt This j) (firstImages This j)
    i hstep
  rcases Nat.lt_trichotomy j l with hlt | heq | hgt
  · have h1 : firstImages This (j + 1) ≤ firstImages This l :=
      firstImages_mono This (by omega)
    have h2 := firstImages_succ This j
    omega
  · subst heq
    exact (etc1sImagesLoop_bad_image eng (imageDescAt This)
      (ktxTexture_calcImageSize proto j) (numImagesAt This j)
      (firstImages This j) i hlo hhi hbad).2 hstep
  · have h1 : firstImages This (l + 1) ≤ firstImages This j :=
      firstImages_mono This (by omega)
    have h2 := firstImages_succ This l
    omega

/-- Basis for claim C8, stated on `ktxTexture2_transcodeEtc1s` with alpha
present: a zero alpha slice offset or length at any image of any level means
no success, the engine is never invoked for that image, and — whenever the
engine itself succeeds on every image it is given — the result is exactly the
data-corruption error. -/
theorem etc1s_bad_alpha_enforcement (eng : Engine) (This proto : ktxTexture2)
    (l i : Nat) (hl : l < This.numLevels)
    (hlo : firstImages This l ≤ i) (hhi : i < firstImages This (l + 1))
    (hbad : (imageDescAt This i).alphaSliceByteOffset = 0 ∨
            (imageDescAt This i).alphaSliceByteLength = 0) :
    (ktxTexture2_transcodeEtc1s eng This true proto).1 ≠ KTX_SUCCESS ∧
    EngineCall.transcodeImage i ∉ (ktxTexture2_transcodeEtc1s eng This true proto).2.2 ∧
    ((∀ j, eng.etc1sImageResult j = KTX_SUCCESS) →
      (ktxTexture2_transcodeEtc1s eng This true proto).1 = KTX_FILE_DATA_ERROR) := by
  have hhi' : i < firstImages This l + numImagesAt This l := by
    rw [← firstImages_succ]; exact hhi
  simp only [ktxTexture2_transcodeEtc1s]
  by_cases hz : (sgdOf This).header.endpointsByteLength = 0 ∨
      (sgdOf This).header.selectorsByteLength = 0 ∨
      (sgdOf This).header.tablesByteLength = 0
  · rw [if_pos hz]
    exact ⟨by simp, by simp, fun _ => rfl⟩
  · rw [if_neg hz]
    by_cases hov : bgdTablesOffset This + (sgdOf This).header.tablesByteLength >
        This.sgdByteLength
    · rw [if_pos hov]
      exact ⟨by simp, by simp, fun _ => rfl⟩
    · rw [if_neg hov]
      have hn : ¬ This.numLevels = 0 := by omega
      rw [if_neg hn]
      have hlk : l ≤ This.numLevels - 1 := by omega
      refine ⟨?_, ?_, ?_⟩
      · exact etc1sLevelLoop_bad_not_success eng This proto l i hlo hhi' hbad
          (This.numLevels - 1) proto.levelIndex 0 hlk
      · simp only [List.mem_append, List.mem_cons, List.mem_singleton]
        rintro ((h | h) | h)
        · exact absurd h (by simp)
        · exact absurd h (by simp)
        · exact etc1sLevelLoop_bad_not_called eng This proto l i hlo hhi' hbad
            (This.numLevels - 1) proto.levelIndex 0 hlk h
      · intro hok
        rcases etc1sLevelLoop_engineOk eng This proto true hok
          (This.numLevels - 1) proto.levelIndex 0 with h | h
        · exact absurd h (etc1sLevelLoop_bad_not_success eng This proto l i hlo
            hhi' hbad (This.numLevels - 1) proto.levelIndex 0 hlk)
        · exact h

/-- Basis for claim C7: a zero endpoints/selectors/tables byte length, or a
tables offset plus tables length exceeding the declared global-data byte
length, makes `ktxTexture2_transcodeEtc1s` fail with `KTX_FILE_DATA_ERROR`
before any engine call (empty call trace). -/
theorem etc1s_sgd_validation (eng : Engine) (This proto : ktxTexture2)
    (ha : Bool)
    (h : ((sgdOf This).header.endpointsByteLength = 0 ∨
          (sgdOf This).header.selectorsByteLength = 0 ∨
          (sgdOf This).header.tablesByteLength = 0) ∨
         bgdTablesOffset This + (sgdOf This).header.tablesByteLength >
           This.sgdByteLength) :
    (ktxTexture2_transcodeEtc1s eng This ha proto).1 = KTX_FILE_DATA_ERROR ∧
    (ktxTexture2_transcodeEtc1s eng This ha proto).2.2 = [] := by
  simp only [ktxTexture2_transcodeEtc1s]
  by_cases hz : (sgdOf This).header.endpointsByteLength = 0 ∨
      (sgdOf This).header.selectorsByteLength = 0 ∨
      (sgdOf This).header.tablesByteLength = 0
  · rw [if_pos hz]
    exact ⟨rfl, rfl⟩
  · rw [if_neg hz]
    have hov : bgdTablesOffset This + (sgdOf This).header.tablesByteLength >
        This.sgdByteLength := h.resolve_left hz
    rw [if_pos hov]
    exact ⟨rfl, rfl⟩

/-- On success, `ktxTexture2_transcodeEtc1s` produces a level index of the
container's level count whose entries carry the level sizes with padded
chained offsets, the smallest mip (highest index) at offset 0. -/
theorem etc1s_success_idx (eng : Engine) (This proto : ktxTexture2) (ha : Bool)
    (hn : This.numLevels ≠ 0) (hlen : proto.levelIndex.length = This.numLevels)
    (hs : (ktxTexture2_transcodeEtc1s eng This ha proto).1 = KTX_SUCCESS) :
    ((ktxTexture2_transcodeEtc1s eng This ha proto).2.1.length = This.numLevels ∧
     (∀ j, j < This.numLevels →
       ((ktxTexture2_transcodeEtc1s eng This ha proto).2.1.getD j default).byteLength =
         levelSizeOut This proto j ∧
       ((ktxTexture2_transcodeEtc1s eng This ha proto).2.1.getD j default).uncompressedByteLength =
         levelSizeOut This proto j) ∧
     (((ktxTexture2_transcodeEtc1s eng This ha proto).2.1.getD
        (This.numLevels - 1) default).byteOffset = 0) ∧
     (∀ j, j + 1 < This.numLevels →
       (((ktxTexture2_transcodeEtc1s eng This ha proto).2.1.getD j default).byteOffset =
         KTX_PADN proto.requiredLevelAlignment
           (((ktxTexture2_transcodeEtc1s eng This ha proto).2.1.getD (j+1) default).byteOffset +
            ((ktxTexture2_transcodeEtc1s eng This ha proto).2.1.getD (j+1) default).byteLength)))) := by
  simp only [ktxTexture2_transcodeEtc1s] at hs ⊢
  by_cases hz : (sgdOf This).header.endpointsByteLength = 0 ∨
      (sgdOf This).header.selectorsByteLength = 0 ∨
      (sgdOf This).header.tablesByteLength = 0
  · rw [if_pos hz] at hs; exact absurd hs (by simp)
  · rw [if_neg hz] at hs ⊢
    by_cases hov : bgdTablesOffset This + (sgdOf This).header.tablesByteLength >
        This.sgdByteLength
    · rw [if_pos hov] at hs; exact absurd hs (by simp)
    · rw [if_neg hov] at hs ⊢
      rw [if_neg hn] at hs ⊢
      have hk : This.numLevels - 1 < proto.levelIndex.length := by omega
      obtain ⟨slen, _, stop, slens, schain⟩ :=
        etc1sLevelLoop_spec eng This proto ha (This.numLevels - 1)
          proto.levelIndex 0 hk hs
      refine ⟨by rw [slen, hlen], ?_, ?_, ?_⟩
      · intro j hj
        exact slens j (by omega)
      · rw [stop]
      · intro j hj
        exact schain j (by omega)

/-- `ktxTexture2_transcodeUastc` always reports success, and its level index
carries the level sizes with unpadded chained offsets, the smallest mip at
offset 0. -/
theorem uastc_success_idx (eng : Engine) (This proto : ktxTexture2) (ha : Bool)
    (hn : This.numLevels ≠ 0) (hlen : proto.levelIndex.length = This.numLevels) :
    ((ktxTexture2_transcodeUastc eng This ha proto).1 = KTX_SUCCESS ∧
     (ktxTexture2_transcodeUastc eng This ha proto).2.1.length = This.numLevels ∧
     (∀ j, j < This.numLevels →
       ((ktxTexture2_transcodeUastc eng This ha proto).2.1.getD j default).byteLength =
         levelSizeOut This proto j ∧
       ((ktxTexture2_transcodeUastc eng This ha proto).2.1.getD j default).uncompressedByteLength =
         levelSizeOut This proto j) ∧
     (((ktxTexture2_transcodeUastc eng This ha proto).2.1.getD
        (This.numLevels - 1) default).byteOffset = 0) ∧
     (∀ j, j + 1 < This.numLevels →
       (((ktxTexture2_transcodeUastc eng This ha proto).2.1.getD j default).byteOffset =
         ((ktxTexture2_transcodeUastc eng This ha proto).2.1.getD (j+1) default).byteOffset +
           ((ktxTexture2_transcodeUastc eng This ha proto).2.1.getD (j+1) default).byteLength))) := by
  simp only [ktxTexture2_transcodeUastc]
  rw [if_neg hn]
  have hk : This.numLevels - 1 < proto.levelIndex.length := by omega
  obtain ⟨slen, _, stop, slens, schain⟩ :=
    uastcLevelLoop_spec eng This proto (This.numLevels - 1) proto.levelIndex 0 hk
  refine ⟨rfl, by rw [slen, hlen], ?_, ?_, ?_⟩
  · intro j hj
    exact slens j (by omega)
  · rw [stop]
  · intro j hj
    exact schain j (by omega)

/-- The prototype's level index is the pre-sized empty index. -/
theorem mkPrototype_levelIndex (T : ktxTexture2) (vk : VkFormat) :
    (mkPrototype T vk).levelIndex = List.replicate T.numLevels default := rfl

/-- The prototype keeps the source's geometry. -/
theorem mkPrototype_geom (T : ktxTexture2) (vk : VkFormat) :
    (mkPrototype T vk).numLevels = T.numLevels ∧
    (mkPrototype T vk).numLayers = T.numLayers ∧
    (mkPrototype T vk).numFaces = T.numFaces ∧
    (mkPrototype T vk).baseWidth = T.baseWidth ∧
    (mkPrototype T vk).baseHeight = T.baseHeight ∧
    (mkPrototype T vk).baseDepth = T.baseDepth := by
  refine ⟨rfl, rfl, rfl, rfl, rfl, rfl⟩

/-- The prototype's allocated data size is the padded sum of its level sizes
(claim C4's right-hand side). -/
theorem mkPrototype_dataSize (T : ktxTexture2) (vk : VkFormat) :
    (mkPrototype T vk).dataSize =
      paddedLevelSum (mkPrototype T vk).requiredLevelAlignment
        (ktxTexture_calcLevelSize (mkPrototype T vk)) T.numLevels := by
  apply paddedLevelSum_congr
  intro l _
  rfl

/-- `materializeLoad` only touches the data fields. -/
theorem materializeLoad_fields (T : ktxTexture2) (d : List Nat) :
    (materializeLoad T d).vkFormat = T.vkFormat ∧
    (materializeLoad T d).supercompressionScheme = T.supercompressionScheme ∧
    (materializeLoad T d).levelIndex = T.levelIndex ∧
    (materializeLoad T d).pDfd = T.pDfd ∧
    (materializeLoad T d).pData = some d ∧
    (materializeLoad T d).numLevels = T.numLevels ∧
    (materializeLoad T d).numLayers = T.numLayers ∧
    (materializeLoad T d).numFaces = T.numFaces ∧
    (materializeLoad T d).baseDepth = T.baseDepth := by
  refine ⟨rfl, rfl, rfl, rfl, rfl, rfl, rfl, rfl, rfl⟩

/-- The fields `commitTranscodeResult` writes into the source container. -/
theorem commit_fields (T proto : ktxTexture2) (vk : VkFormat)
    (idx : List ktxLevelIndexEntry) :
    (commitTranscodeResult T proto vk idx).levelIndex = idx ∧
    (commitTranscodeResult T proto vk idx).dataSize = proto.dataSize ∧
    (commitTranscodeResult T proto vk idx).requiredLevelAlignment =
      proto.requiredLevelAlignment ∧
    (commitTranscodeResult T proto vk idx).vkFormat = vk ∧
    (commitTranscodeResult T proto vk idx).supercompressionScheme = KTX_SS_NONE ∧
    (commitTranscodeResult T proto vk idx).numLevels = T.numLevels := by
  refine ⟨rfl, rfl, rfl, rfl, rfl, rfl⟩

/-- `numImagesAt` depends only on layer/face/depth geometry. -/
theorem numImagesAt_congr (t t' : ktxTexture2)
    (h1 : t.numLayers = t'.numLayers) (h2 : t.numFaces = t'.numFaces)
    (h3 : t.baseDepth = t'.baseDepth) (j : Nat) :
    numImagesAt t j = numImagesAt t' j := by
  simp [numImagesAt, h1, h2, h3]

/-- On failure `runTranscode` hands back the container it was given. -/
theorem runTranscode_failure (eng : Engine) (tex proto : ktxTexture2)
    (vk : VkFormat) (ha : Bool) (initFlag : Bool)
    (h : (runTranscode eng tex proto vk ha initFlag).result ≠ KTX_SUCCESS) :
    (runTranscode eng tex proto vk ha initFlag).texture = tex := by
  simp only [runTranscode] at h ⊢
  by_cases hd : (if tex.supercompressionScheme = KTX_SS_BASIS_UNIVERSAL then
      ktxTexture2_transcodeEtc1s eng tex ha proto
    else ktxTexture2_transcodeUastc eng tex ha proto).1 = KTX_SUCCESS
  · rw [if_pos hd] at h
    exact absurd rfl h
  · rw [if_neg hd]

/-- On success `runTranscode` commits the dispatched transcoder's level
index. -/
theorem runTranscode_success (eng : Engine) (tex proto : ktxTexture2)
    (vk : VkFormat) (ha : Bool) (initFlag : Bool)
    (h : (runTranscode eng tex proto vk ha initFlag).result = KTX_SUCCESS) :
    (tex.supercompressionScheme = KTX_SS_BASIS_UNIVERSAL ∧
      (ktxTexture2_transcodeEtc1s eng tex ha proto).1 = KTX_SUCCESS ∧
      (runTranscode eng tex proto vk ha initFlag).texture =
        commitTranscodeResult tex proto vk
          (ktxTexture2_transcodeEtc1s eng tex ha proto).2.1) ∨
    (tex.supercompressionScheme ≠ KTX_SS_BASIS_UNIVERSAL ∧
      (runTranscode eng tex proto vk ha initFlag).texture =
        commitTranscodeResult tex proto vk
          (ktxTexture2_transcodeUastc eng tex ha proto).2.1) := by
  simp only [runTranscode] at h ⊢
  by_cases hsch : tex.supercompressionScheme = KTX_SS_BASIS_UNIVERSAL
  · left
    rw [if_pos hsch] at h ⊢
    by_cases hd : (ktxTexture2_transcodeEtc1s eng tex ha proto).1 = KTX_SUCCESS
    · rw [if_pos hd]
      exact ⟨hsch, hd, rfl⟩
    · rw [if_neg hd] at h
      exact absurd h hd
  · right
    rw [if_neg hsch] at h ⊢
    by_cases hd : (ktxTexture2_transcodeUastc eng tex ha proto).1 = KTX_SUCCESS
    · rw [if_pos hd]
      exact ⟨hsch, rfl⟩
    · rw [if_neg hd] at h
      exact absurd h hd

/-- Case analysis of `ktxTexture2_TranscodeBasis`: either it returns from one
of the precondition/creation/load checks with an error and an untouched
container, or it reaches the dispatch with a prototype built from some
resolved `vk`, the source container as given or with a completed lazy load. -/
theorem TranscodeBasis_cases (eng : Engine) (This : ktxTexture2)
    (fmt : ktx_transcode_fmt) (flags : ktx_transcode_flags) (initFlag : Bool) :
    (∃ e, ktxTexture2_TranscodeBasis eng This fmt flags initFlag =
        ⟨e, This, [], false, initFlag⟩ ∧ e ≠ KTX_SUCCESS) ∨
    (∃ vk tex2,
      (tex2 = This ∨
        (This.pData = none ∧ ∃ d, This.pendingData = some d ∧
          tex2 = materializeLoad This d)) ∧
      ktxTexture2_TranscodeBasis eng This fmt flags initFlag =
        runTranscode eng tex2 (mkPrototype This vk) vk (transcodeHasAlpha This)
          initFlag) := by
  simp only [ktxTexture2_TranscodeBasis]
  by_cases h1 : This.pDfd.colorModel ≠ KHR_DF_MODEL_UASTC ∧
      This.supercompressionScheme ≠ KTX_SS_BASIS_UNIVERSAL
  · rw [if_pos h1]
    exact Or.inl ⟨KTX_INVALID_OPERATION, rfl, by decide⟩
  · rw [if_neg h1]
    by_cases h2 : This.supercompressionScheme = KTX_SS_BASIS_UNIVERSAL ∧
        (This.supercompressionGlobalData = none ∨ This.sgdByteLength = 0)
    · rw [if_pos h2]
      exact Or.inl ⟨KTX_INVALID_OPERATION, rfl, by decide⟩
    · rw [if_neg h2]
      by_cases h3 : flags.pvrtcDecodeToNextPow2
      · rw [if_pos h3]
        exact Or.inl ⟨KTX_UNSUPPORTED_FEATURE, rfl, by decide⟩
      · rw [if_neg h3]
        by_cases h4 : (fmt = KTX_TTF_PVRTC1_4_RGB ∨ fmt = KTX_TTF_PVRTC1_4_RGBA) ∧
            (isPow2 This.baseWidth = false ∨ isPow2 This.baseHeight = false)
        · rw [if_pos h4]
          exact Or.inl ⟨KTX_INVALID_OPERATION, rfl, by decide⟩
        · rw [if_neg h4]
          rcases hvk : vkFormatFor (This.pDfd.transfer == KHR_DF_TRANSFER_SRGB)
              (resolveOutputFormat (transcodeHasAlpha This) fmt) with _ | vk
          · exact Or.inl ⟨KTX_INVALID_VALUE, rfl, by decide⟩
          · dsimp only
            by_cases h5 : eng.createResult ≠ KTX_SUCCESS
            · rw [if_pos h5]
              exact Or.inl ⟨eng.createResult, rfl, h5⟩
            · rw [if_neg h5]
              rcases hp : This.pData with _ | d0
              · rcases hq : This.pendingData with _ | d
                · exact Or.inl ⟨KTX_INVALID_OPERATION, rfl, by decide⟩
                · dsimp only
                  by_cases h6 : eng.loadResult ≠ KTX_SUCCESS
                  · rw [if_pos h6]
                    exact Or.inl ⟨eng.loadResult, rfl, h6⟩
                  · rw [if_neg h6]
                    exact Or.inr ⟨vk, materializeLoad This d,
                      Or.inr ⟨rfl, d, rfl, rfl⟩, rfl⟩
              · exact Or.inr ⟨vk, This, Or.inl rfl, rfl⟩

/-- An engine whose every external call succeeds. -/
def engineOk : Engine :=
  { etc1sImageResult := fun _ => KTX_SUCCESS
    uastcImageResult := fun _ _ => KTX_SUCCESS
    createResult := KTX_SUCCESS
    loadResult := KTX_SUCCESS }

/-- An engine whose per-image UASTC transcode always fails. -/
def engineUastcFail : Engine :=
  { engineOk with uastcImageResult := fun _ _ => KTX_TRANSCODE_FAILED }

/-- Zero transcode flags. -/
def flags0 : ktx_transcode_flags :=
  { pvrtcDecodeToNextPow2 := false
    transcodeAlphaDataToOpaqueFormats := false
    otherBits := 0 }

/-- Flags with only `KTX_TF_PVRTC_DECODE_TO_NEXT_POW2` set. -/
def flagsPow2 : ktx_transcode_flags :=
  { flags0 with pvrtcDecodeToNextPow2 := true }

/-- A 2×2 two-level UASTC container with data present. -/
def uastcTex2x2 : ktxTexture2 :=
  { vkFormat := VK_FORMAT_UNDEFINED
    baseWidth := 2, baseHeight := 2, baseDepth := 1
    numDimensions := 2, numLevels := 2, numLayers := 1, numFaces := 1
    isArray := false, isVideo := false, isCompressed := true
    generateMipmaps := false
    supercompressionScheme := KTX_SS_NONE
    pDfd := ⟨KHR_DF_MODEL_UASTC, KHR_DF_TRANSFER_LINEAR, 0⟩
    pData := some (List.replicate 32 0), dataSize := 32
    numComponents := 4
    supercompressionGlobalData := none, sgdByteLength := 0
    requiredLevelAlignment := 16
    levelIndex := [⟨16, 16, 16⟩, ⟨0, 16, 16⟩]
    pendingData := none
    formatSize := ⟨4, 4, 128⟩ }

/-- A 3×3 (non-power-of-two) single-level UASTC container with data. -/
def uastcTex3x3 : ktxTexture2 :=
  { uastcTex2x2 with
    baseWidth := 3, baseHeight := 3, numLevels := 1
    pData := some (List.replicate 16 0), dataSize := 16
    levelIndex := [⟨0, 16, 16⟩] }

/-- A BasisLZ (ETC1S) container whose image data is pending on a stream and
whose global-data header declares a zero endpoints byte length. -/
def basisTexLazyBadSgd : ktxTexture2 :=
  { vkFormat := VK_FORMAT_UNDEFINED
    baseWidth := 4, baseHeight := 4, baseDepth := 1
    numDimensions := 2, numLevels := 1, numLayers := 1, numFaces := 1
    isArray := false, isVideo := false, isCompressed := true
    generateMipmaps := false
    supercompressionScheme := KTX_SS_BASIS_UNIVERSAL
    pDfd := ⟨KHR_DF_MODEL_ETC1S, KHR_DF_TRANSFER_SRGB, 0⟩
    pData := none, dataSize := 0
    numComponents := 3
    supercompressionGlobalData :=
      some ⟨⟨0, 16, 16, 0, 20, 20, 0⟩, [⟨0, 0, 40, 0, 0⟩]⟩
    sgdByteLength := 100
    requiredLevelAlignment := 8
    levelIndex := [⟨0, 40, 40⟩]
    pendingData := some [7, 7, 7]
    formatSize := ⟨4, 4, 64⟩ }

/-- A BasisLZ (ETC1S) container with alpha (4 components), a structurally
valid global-data header, and an image descriptor whose alpha slice offset is
zero. -/
def basisTexAlphaBadDesc : ktxTexture2 :=
  { basisTexLazyBadSgd with
    numComponents := 4
    pData := some (List.replicate 40 0), dataSize := 40
    pendingData := none
    supercompressionGlobalData :=
      some ⟨⟨1, 16, 16, 10, 10, 10, 0⟩, [⟨0, 10, 5, 0, 0⟩]⟩
    sgdByteLength := 100 }

/-- C1: the claim says both transcoding paths abort on the first per-image
engine error and propagate it unchanged.  The ETC1S path does
(`goto cleanup`), but the UASTC path assigns the engine result to `result`
without ever testing it and `return KTX_SUCCESS` unconditionally: here the
engine fails every image of a 2-level UASTC texture, yet the entry point
still invokes the engine for every image and reports success. -/
theorem C1_uastc_engine_error_swallowed :
    (ktxTexture2_TranscodeBasis engineUastcFail uastcTex2x2 KTX_TTF_BC1_RGB
      flags0 false).result = KTX_SUCCESS ∧
    engineUastcFail.uastcImageResult 1 0 = KTX_TRANSCODE_FAILED ∧
    (ktxTexture2_TranscodeBasis engineUastcFail uastcTex2x2 KTX_TTF_BC1_RGB
      flags0 false).trace =
      [EngineCall.transcodeUastcImage 1 0, EngineCall.transcodeUastcImage 0 0] := by
  exact ⟨by decide, rfl, by decide⟩

/-- C2 counterexample: the claim requires the source container's data buffer
to be byte-identical to its pre-call value on every failure, but when image
data is lazy-load pending the entry point first completes the load
(`ktxTexture2_LoadImageData`) and only then validates the global data; on a
container with a corrupt global-data header the call fails with
`KTX_FILE_DATA_ERROR` while the data buffer has changed from absent to
loaded. -/
theorem C2_counterexample_lazy_load :
    (ktxTexture2_TranscodeBasis engineOk basisTexLazyBadSgd KTX_TTF_ETC1_RGB
      flags0 false).result ≠ KTX_SUCCESS ∧
    basisTexLazyBadSgd.pData = none ∧
    (ktxTexture2_TranscodeBasis engineOk basisTexLazyBadSgd KTX_TTF_ETC1_RGB
      flags0 false).texture.pData = some [7, 7, 7] := by
  exact ⟨by decide, rfl, by decide⟩

/-- C2 (amended): on every non-success return the source container's format
tag, supercompression scheme, level index and DFD are unchanged, and its data
buffer is unchanged except that a pending lazy load may have been completed
(the buffer then holds exactly the stream's bytes); all other mutation happens
only in the commit step after full success. -/
theorem C2_failure_preserves_source (eng : Engine) (This : ktxTexture2)
    (fmt : ktx_transcode_fmt) (flags : ktx_transcode_flags) (initFlag : Bool)
    (h : (ktxTexture2_TranscodeBasis eng This fmt flags initFlag).result ≠
      KTX_SUCCESS) :
    (ktxTexture2_TranscodeBasis eng This fmt flags initFlag).texture.vkFormat =
      This.vkFormat ∧
    (ktxTexture2_TranscodeBasis eng This fmt flags initFlag).texture.supercompressionScheme =
      This.supercompressionScheme ∧
    (ktxTexture2_TranscodeBasis eng This fmt flags initFlag).texture.levelIndex =
      This.levelIndex ∧
    (ktxTexture2_TranscodeBasis eng This fmt flags initFlag).texture.pDfd =
      This.pDfd ∧
    (((ktxTexture2_TranscodeBasis eng This fmt flags initFlag).texture.pData =
        This.pData ∧
      (ktxTexture2_TranscodeBasis eng This fmt flags initFlag).texture.dataSize =
        This.dataSize) ∨
     (This.pData = none ∧ ∃ d, This.pendingData = some d ∧
      (ktxTexture2_TranscodeBasis eng This fmt flags initFlag).texture.pData =
        some d)) := by
  rcases TranscodeBasis_cases eng This fmt flags initFlag with
    ⟨e, heq, _⟩ | ⟨vk, tex2, htex2, heq⟩
  · rw [heq]
    exact ⟨rfl, rfl, rfl, rfl, Or.inl ⟨rfl, rfl⟩⟩
  · rw [heq] at h ⊢
    rw [runTranscode_failure eng tex2 (mkPrototype This vk) vk
      (transcodeHasAlpha This) initFlag h]
    rcases htex2 with rfl | ⟨hpn, d, hpd, rfl⟩
    · exact ⟨rfl, rfl, rfl, rfl, Or.inl ⟨rfl, rfl⟩⟩
    · exact ⟨rfl, rfl, rfl, rfl, Or.inr ⟨hpn, d, hpd, rfl⟩⟩

/-- Closed witness for C2's amended theorem at a concrete failing input. -/
theorem C2_failure_preserves_source_witness :
    (ktxTexture2_TranscodeBasis engineOk uastcTex2x2 KTX_TTF_NOSELECTION flags0
      false).result ≠ KTX_SUCCESS ∧
    (ktxTexture2_TranscodeBasis engineOk uastcTex2x2 KTX_TTF_NOSELECTION flags0
      false).texture.vkFormat = uastcTex2x2.vkFormat ∧
    (ktxTexture2_TranscodeBasis engineOk uastcTex2x2 KTX_TTF_NOSELECTION flags0
      false).texture.supercompressionScheme = uastcTex2x2.supercompressionScheme ∧
    (ktxTexture2_TranscodeBasis engineOk uastcTex2x2 KTX_TTF_NOSELECTION flags0
      false).texture.levelIndex = uastcTex2x2.levelIndex ∧
    (ktxTexture2_TranscodeBasis engineOk uastcTex2x2 KTX_TTF_NOSELECTION flags0
      false).texture.pDfd = uastcTex2x2.pDfd ∧
    ((((ktxTexture2_TranscodeBasis engineOk uastcTex2x2 KTX_TTF_NOSELECTION flags0
      false).texture.pData = uastcTex2x2.pData) ∧
      (ktxTexture2_TranscodeBasis engineOk uastcTex2x2 KTX_TTF_NOSELECTION flags0
      false).texture.dataSize = uastcTex2x2.dataSize) ∨
     (uastcTex2x2.pData = none ∧ ∃ d, uastcTex2x2.pendingData = some d ∧
      (ktxTexture2_TranscodeBasis engineOk uastcTex2x2 KTX_TTF_NOSELECTION flags0
      false).texture.pData = some d)) := by
  have h : (ktxTexture2_TranscodeBasis engineOk uastcTex2x2 KTX_TTF_NOSELECTION flags0
      false).result ≠ KTX_SUCCESS := by decide
  obtain ⟨h1, h2, h3, h4, h5⟩ :=
    C2_failure_preserves_source engineOk uastcTex2x2 KTX_TTF_NOSELECTION flags0
      false h
  exact ⟨h, h1, h2, h3, h4, h5⟩

/-- C3 counterexample: the claim covers all four PVRTC targets and all flag
bits, but the source's power-of-two check (lines 181–187) tests only
`KTX_TTF_PVRTC1_4_RGB`/`KTX_TTF_PVRTC1_4_RGBA`: on a 3×3 container a
PVRTC2 target sails through and the call succeeds, and even a PVRTC1 target
with `KTX_TF_PVRTC_DECODE_TO_NEXT_POW2` set fails earlier with
`KTX_UNSUPPORTED_FEATURE`, not invalid-operation. -/
theorem C3_counterexample_pvrtc2_and_flag :
    isPow2 uastcTex3x3.baseWidth = false ∧
    (ktxTexture2_TranscodeBasis engineOk uastcTex3x3 KTX_TTF_PVRTC2_4_RGB
      flags0 false).result = KTX_SUCCESS ∧
    (ktxTexture2_TranscodeBasis engineOk uastcTex3x3 KTX_TTF_PVRTC1_4_RGB
      flagsPow2 false).result = KTX_UNSUPPORTED_FEATURE := by
  exact ⟨by decide, by decide, by decide⟩

/-- C3 (amended): for every container, requesting `KTX_TTF_PVRTC1_4_RGB` or
`KTX_TTF_PVRTC1_4_RGBA` with a non-power-of-two base width or height fails
with `KTX_INVALID_OPERATION`, for any flag bits as long as
`KTX_TF_PVRTC_DECODE_TO_NEXT_POW2` is not among them; PVRTC2 targets are not
subject to the check. -/
theorem C3_pvrtc1_nonpow2_invalid_operation (eng : Engine) (This : ktxTexture2)
    (fmt : ktx_transcode_fmt) (flags : ktx_transcode_flags) (initFlag : Bool)
    (hf : fmt = KTX_TTF_PVRTC1_4_RGB ∨ fmt = KTX_TTF_PVRTC1_4_RGBA)
    (hp : isPow2 This.baseWidth = false ∨ isPow2 This.baseHeight = false)
    (hfl : flags.pvrtcDecodeToNextPow2 = false) :
    (ktxTexture2_TranscodeBasis eng This fmt flags initFlag).result =
      KTX_INVALID_OPERATION := by
  simp only [ktxTexture2_TranscodeBasis]
  by_cases h1 : This.pDfd.colorModel ≠ KHR_DF_MODEL_UASTC ∧
      This.supercompressionScheme ≠ KTX_SS_BASIS_UNIVERSAL
  · rw [if_pos h1]
  · rw [if_neg h1]
    by_cases h2 : This.supercompressionScheme = KTX_SS_BASIS_UNIVERSAL ∧
        (This.supercompressionGlobalData = none ∨ This.sgdByteLength = 0)
    · rw [if_pos h2]
    · rw [if_neg h2]
      rw [if_neg (by simp [hfl])]
      rw [if_pos ⟨hf, hp⟩]

/-- Closed witness for C3's amended theorem at a concrete input. -/
theorem C3_pvrtc1_nonpow2_witness :
    (uastcTex3x3 = uastcTex3x3 ∧ isPow2 uastcTex3x3.baseWidth = false ∧
      flags0.pvrtcDecodeToNextPow2 = false) ∧
    (ktxTexture2_TranscodeBasis engineOk uastcTex3x3 KTX_TTF_PVRTC1_4_RGB
      flags0 false).result = KTX_INVALID_OPERATION := by
  refine ⟨⟨rfl, by decide, rfl⟩, ?_⟩
  exact C3_pvrtc1_nonpow2_invalid_operation engineOk uastcTex3x3
    KTX_TTF_PVRTC1_4_RGB flags0 false (Or.inl rfl) (Or.inl (by decide)) rfl

/-- C5: the ambiguous requested formats resolve purely from the
source-has-alpha flag: BC1-or-3 to BC3_RGBA/BC1_RGB, auto ETC to
ETC2_RGBA/ETC1_RGB, and the alpha-capable PVRTC variants to their opaque RGB
variants when no alpha is present. -/
theorem C5_ambiguous_format_resolution :
    ∀ hasAlpha : Bool,
      resolveOutputFormat hasAlpha KTX_TTF_BC1_OR_3 =
        (if hasAlpha then KTX_TTF_BC3_RGBA else KTX_TTF_BC1_RGB) ∧
      resolveOutputFormat hasAlpha KTX_TTF_ETC =
        (if hasAlpha then KTX_TTF_ETC2_RGBA else KTX_TTF_ETC1_RGB) ∧
      resolveOutputFormat hasAlpha KTX_TTF_PVRTC1_4_RGBA =
        (if hasAlpha then KTX_TTF_PVRTC1_4_RGBA else KTX_TTF_PVRTC1_4_RGB) ∧
      resolveOutputFormat hasAlpha KTX_TTF_PVRTC2_4_RGBA =
        (if hasAlpha then KTX_TTF_PVRTC2_4_RGBA else KTX_TTF_PVRTC2_4_RGB) := by
  intro hasAlpha
  cases hasAlpha <;> exact ⟨rfl, rfl, rfl, rfl⟩

/-- C6 counterexample: the claim says every supported format resolves to an
sRGB tag exactly when the source transfer function is sRGB, but
`KTX_TTF_ETC2_EAC_R11` (likewise EAC RG11, BC4, BC5, the 565/4444 packed
formats) maps to its `UNORM` tag even with `srgb = true`. -/
theorem C6_counterexample_eac_r11 :
    vkFormatFor true KTX_TTF_ETC2_EAC_R11 = some VK_FORMAT_EAC_R11_UNORM_BLOCK ∧
    VkFormat.isSrgb VK_FORMAT_EAC_R11_UNORM_BLOCK = false := by
  exact ⟨rfl, rfl⟩

/-- C6 (amended): for every supported output format, the resolved tag is the
sRGB variant exactly when the source transfer function is sRGB **and** the
format has an sRGB Vulkan variant at all (ETC1/ETC2 color, BC1, BC3, BC7,
PVRTC1/2, ASTC 4x4, RGBA32); the formats with only a linear variant (EAC R11,
EAC RG11, BC4, BC5, RGB565, BGR565, RGBA4444) always resolve to their UNORM
tag. -/
theorem C6_srgb_variant_selection (srgb : Bool) (fmt : ktx_transcode_fmt)
    (vk : VkFormat) (h : vkFormatFor srgb fmt = some vk) :
    vk.isSrgb = (srgb && hasSrgbVariant fmt) := by
  cases fmt <;> cases srgb <;>
    first
      | exact Option.noConfusion h
      | (injection h with h; subst h; rfl)

/-- Closed witness for C6's amended theorem. -/
theorem C6_srgb_variant_selection_witness :
    vkFormatFor true KTX_TTF_BC7_RGBA = some VK_FORMAT_BC7_SRGB_BLOCK ∧
    VkFormat.isSrgb VK_FORMAT_BC7_SRGB_BLOCK =
      (true && hasSrgbVariant KTX_TTF_BC7_RGBA) := by
  exact ⟨rfl, C6_srgb_variant_selection true KTX_TTF_BC7_RGBA
    VK_FORMAT_BC7_SRGB_BLOCK rfl⟩

/-- Closed witness for C7's theorem (`etc1s_sgd_validation`): a header whose
endpoints byte length is zero fails with the data-corruption error and an
empty engine-call trace. -/
theorem C7_sgd_validation_witness :
    ((sgdOf basisTexLazyBadSgd).header.endpointsByteLength = 0 ∨
     (sgdOf basisTexLazyBadSgd).header.selectorsByteLength = 0 ∨
     (sgdOf basisTexLazyBadSgd).header.tablesByteLength = 0) ∧
    (ktxTexture2_transcodeEtc1s engineOk basisTexLazyBadSgd false
      (mkPrototype basisTexLazyBadSgd VK_FORMAT_ETC2_R8G8B8_SRGB_BLOCK)).1 =
      KTX_FILE_DATA_ERROR ∧
    (ktxTexture2_transcodeEtc1s engineOk basisTexLazyBadSgd false
      (mkPrototype basisTexLazyBadSgd VK_FORMAT_ETC2_R8G8B8_SRGB_BLOCK)).2.2 =
      [] := by
  have h := etc1s_sgd_validation engineOk basisTexLazyBadSgd
    (mkPrototype basisTexLazyBadSgd VK_FORMAT_ETC2_R8G8B8_SRGB_BLOCK) false
    (Or.inl (Or.inl (by decide)))
  exact ⟨Or.inl (by decide), h.1, h.2⟩

/-- Closed witness for C8's theorem (`etc1s_bad_alpha_enforcement`): image 0
of a 1-level alpha container declares a zero alpha slice offset; the palette
path rejects it with `KTX_FILE_DATA_ERROR` and never hands image 0 to the
engine. -/
theorem C8_bad_alpha_witness :
    (0 < basisTexAlphaBadDesc.numLevels ∧
     firstImages basisTexAlphaBadDesc 0 ≤ 0 ∧
     0 < firstImages basisTexAlphaBadDesc 1 ∧
     (imageDescAt basisTexAlphaBadDesc 0).alphaSliceByteOffset = 0) ∧
    ((ktxTexture2_transcodeEtc1s engineOk basisTexAlphaBadDesc true
        (mkPrototype basisTexAlphaBadDesc VK_FORMAT_ETC2_R8G8B8A8_SRGB_BLOCK)).1 ≠
      KTX_SUCCESS ∧
     EngineCall.transcodeImage 0 ∉
       (ktxTexture2_transcodeEtc1s engineOk basisTexAlphaBadDesc true
        (mkPrototype basisTexAlphaBadDesc VK_FORMAT_ETC2_R8G8B8A8_SRGB_BLOCK)).2.2 ∧
     (ktxTexture2_transcodeEtc1s engineOk basisTexAlphaBadDesc true
        (mkPrototype basisTexAlphaBadDesc VK_FORMAT_ETC2_R8G8B8A8_SRGB_BLOCK)).1 =
      KTX_FILE_DATA_ERROR) := by
  have h := etc1s_bad_alpha_enforcement engineOk basisTexAlphaBadDesc
    (mkPrototype basisTexAlphaBadDesc VK_FORMAT_ETC2_R8G8B8A8_SRGB_BLOCK)
    0 0 (by decide) (by decide) (by decide) (Or.inl (by decide))
  exact ⟨⟨by decide, by decide, by decide, by decide⟩,
    h.1, h.2.1, h.2.2 (fun _ => rfl)⟩

/-- C9: the claim says `basisu_transcoder_init` executes at most once across
sequential calls, but the guarding `static bool transcoderInitialized` is
never set to true, so every call that reaches the init point runs the
initializer again: two back-to-back calls both run it. -/
theorem C9_transcoder_init_runs_every_call :
    (ktxTexture2_TranscodeBasis engineOk uastcTex2x2 KTX_TTF_BC7_RGBA flags0
      false).initCalled = true ∧
    (ktxTexture2_TranscodeBasis engineOk uastcTex2x2 KTX_TTF_BC7_RGBA flags0
      false).initFlagAfter = false ∧
    (ktxTexture2_TranscodeBasis engineOk uastcTex2x2 KTX_TTF_BC7_RGBA flags0
      (ktxTexture2_TranscodeBasis engineOk uastcTex2x2 KTX_TTF_BC7_RGBA flags0
        false).initFlagAfter).initCalled = true := by
  exact ⟨by decide, by decide, by decide⟩

/-- C10: the source-has-alpha flag is true exactly when either the source is
BasisLZ-supercompressed with 2 or 4 reported components, or it is not (the
UASTC branch) and sample 0's channel id is the alpha-present tag. -/
theorem C10_hasAlpha_derivation (This : ktxTexture2) :
    transcodeHasAlpha This = true ↔
      ((This.supercompressionScheme = KTX_SS_BASIS_UNIVERSAL ∧
        (This.numComponents = 2 ∨ This.numComponents = 4)) ∨
       (This.supercompressionScheme ≠ KTX_SS_BASIS_UNIVERSAL ∧
        This.pDfd.sample0ChannelId = KHR_DF_CHANNEL_UASTC_ALPHAPRESENT)) := by
  unfold transcodeHasAlpha
  by_cases h : This.supercompressionScheme = KTX_SS_BASIS_UNIVERSAL <;>
    simp [h]

/-- With no mip levels the ETC1S path leaves the prototype's level index as
pre-sized (the loop body never runs). -/
theorem etc1s_numLevels_zero (eng : Engine) (This proto : ktxTexture2)
    (ha : Bool) (hn : This.numLevels = 0)
    (hs : (ktxTexture2_transcodeEtc1s eng This ha proto).1 = KTX_SUCCESS) :
    (ktxTexture2_transcodeEtc1s eng This ha proto).2.1 = proto.levelIndex := by
  simp only [ktxTexture2_transcodeEtc1s] at hs ⊢
  by_cases hz : (sgdOf This).header.endpointsByteLength = 0 ∨
      (sgdOf This).header.selectorsByteLength = 0 ∨
      (sgdOf This).header.tablesByteLength = 0
  · rw [if_pos hz] at hs; exact absurd hs (by simp)
  · rw [if_neg hz] at hs ⊢
    by_cases hov : bgdTablesOffset This + (sgdOf This).header.tablesByteLength >
        This.sgdByteLength
    · rw [if_pos hov] at hs; exact absurd hs (by simp)
    · rw [if_neg hov, if_pos hn]

/-- With no mip levels the UASTC path leaves the prototype's level index as
pre-sized. -/
theorem uastc_numLevels_zero (eng : Engine) (This proto : ktxTexture2)
    (ha : Bool) (hn : This.numLevels = 0) :
    (ktxTexture2_transcodeUastc eng This ha proto).2.1 = proto.levelIndex := by
  simp only [ktxTexture2_transcodeUastc]
  rw [if_pos hn]

/-- The source container after a `ktxTexture2_TranscodeBasis` call. -/
def postTexture (eng : Engine) (This : ktxTexture2) (fmt : ktx_transcode_fmt)
    (flags : ktx_transcode_flags) (initFlag : Bool) : ktxTexture2 :=
  (ktxTexture2_TranscodeBasis eng This fmt flags initFlag).texture

/-- C4 counterexample: the claim requires each level's byte length to be
padded up to the required level alignment before the next level's byte
offset, but the UASTC loop advances its write offset without inter-level
padding: transcoding a 2-level 2×2 UASTC texture to RGB565 (alignment 4,
1×1 mip of 2 bytes) succeeds with level 0 at byte offset 2, not the padded
4. -/
theorem C4_counterexample_uastc_unpadded :
    (ktxTexture2_TranscodeBasis engineOk uastcTex2x2 KTX_TTF_RGB565 flags0
      false).result = KTX_SUCCESS ∧
    ((postTexture engineOk uastcTex2x2 KTX_TTF_RGB565 flags0
      false).levelIndex.getD 0 default).byteOffset = 2 ∧
    KTX_PADN (postTexture engineOk uastcTex2x2 KTX_TTF_RGB565 flags0
        false).requiredLevelAlignment
      (((postTexture engineOk uastcTex2x2 KTX_TTF_RGB565 flags0
          false).levelIndex.getD 1 default).byteOffset +
       ((postTexture engineOk uastcTex2x2 KTX_TTF_RGB565 flags0
          false).levelIndex.getD 1 default).byteLength) = 4 := by
  exact ⟨by decide, by decide, by decide⟩

/-- C4 (amended): after every successful transcode the committed level index
has one entry per level with `byteLength = uncompressedByteLength`, the
smallest mip (highest level index) at byte offset 0, the sum of all levels'
byte lengths each padded to the destination's required level alignment equal
to the final data buffer size, and offsets chained smallest-mip-first — with
inter-level padding on the palette (BasisLZ) path, and packed without
inter-level padding on the universal (UASTC) path. -/
theorem C4_success_level_index (eng : Engine) (This : ktxTexture2)
    (fmt : ktx_transcode_fmt) (flags : ktx_transcode_flags) (initFlag : Bool)
    (h : (ktxTexture2_TranscodeBasis eng This fmt flags initFlag).result =
      KTX_SUCCESS) :
    (postTexture eng This fmt flags initFlag).levelIndex.length =
      This.numLevels ∧
    (∀ j, j < This.numLevels →
      (((postTexture eng This fmt flags initFlag).levelIndex.getD j
          default).byteLength =
       ((postTexture eng This fmt flags initFlag).levelIndex.getD j
          default).uncompressedByteLength)) ∧
    (0 < This.numLevels →
      (((postTexture eng This fmt flags initFlag).levelIndex.getD
          (This.numLevels - 1) default).byteOffset = 0)) ∧
    paddedLevelSum (postTexture eng This fmt flags initFlag).requiredLevelAlignment
      (fun l => ((postTexture eng This fmt flags initFlag).levelIndex.getD l
          default).byteLength) This.numLevels =
      (postTexture eng This fmt flags initFlag).dataSize ∧
    (∀ j, j + 1 < This.numLevels →
      ((postTexture eng This fmt flags initFlag).levelIndex.getD j
          default).byteOffset =
        (if This.supercompressionScheme = KTX_SS_BASIS_UNIVERSAL then
          KTX_PADN
            (postTexture eng This fmt flags initFlag).requiredLevelAlignment
            (((postTexture eng This fmt flags initFlag).levelIndex.getD (j + 1)
                default).byteOffset +
             ((postTexture eng This fmt flags initFlag).levelIndex.getD (j + 1)
                default).byteLength)
        else
          ((postTexture eng This fmt flags initFlag).levelIndex.getD (j + 1)
              default).byteOffset +
            ((postTexture eng This fmt flags initFlag).levelIndex.getD (j + 1)
                default).byteLength)) := by
  rcases TranscodeBasis_cases eng This fmt flags initFlag with
    ⟨e, heq, hne⟩ | ⟨vk, tex2, htex2, heq⟩
  · rw [heq] at h
    exact absurd h hne
  · have hpost : postTexture eng This fmt flags initFlag =
        (runTranscode eng tex2 (mkPrototype This vk) vk (transcodeHasAlpha This)
          initFlag).texture := by
      rw [postTexture, heq]
    rw [heq] at h
    obtain ⟨hT1, hT2, hT3, hT4, hT5⟩ : tex2.numLevels = This.numLevels ∧
        tex2.numLayers = This.numLayers ∧ tex2.numFaces = This.numFaces ∧
        tex2.baseDepth = This.baseDepth ∧
        tex2.supercompressionScheme = This.supercompressionScheme := by
      rcases htex2 with rfl | ⟨_, d, _, rfl⟩ <;> exact ⟨rfl, rfl, rfl, rfl, rfl⟩
    have hplen : (mkPrototype This vk).levelIndex.length = tex2.numLevels := by
      rw [mkPrototype_levelIndex]; simp [hT1]
    have hni : ∀ l, numImagesAt tex2 l = numImagesAt (mkPrototype This vk) l := by
      intro l
      exact numImagesAt_congr tex2 (mkPrototype This vk)
        (by rw [hT2]; rfl) (by rw [hT3]; rfl) (by rw [hT4]; rfl) l
    have hlev : ∀ l, levelSizeOut tex2 (mkPrototype This vk) l =
        ktxTexture_calcLevelSize (mkPrototype This vk) l := by
      intro l
      rw [levelSizeOut, ktxTexture_calcLevelSize, hni l, Nat.mul_comm]
    rcases runTranscode_success eng tex2 (mkPrototype This vk) vk
        (transcodeHasAlpha This) initFlag h with
      ⟨hsch, htr, hcommit⟩ | ⟨hsch, hcommit⟩
    · -- palette (BasisLZ) path
      rw [hpost, hcommit]
      obtain ⟨hc1, hc2, hc3, _, _, _⟩ := commit_fields tex2 (mkPrototype This vk)
        vk (ktxTexture2_transcodeEtc1s eng tex2 (transcodeHasAlpha This)
          (mkPrototype This vk)).2.1
      simp only [hc1, hc2, hc3]
      have hschThis : This.supercompressionScheme = KTX_SS_BASIS_UNIVERSAL := by
        rw [← hT5]; exact hsch
      by_cases hn : tex2.numLevels = 0
      · have hn0 : This.numLevels = 0 := by omega
        have hidx := etc1s_numLevels_zero eng tex2 (mkPrototype This vk)
          (transcodeHasAlpha This) hn htr
        refine ⟨?_, ?_, ?_, ?_, ?_⟩
        · rw [hidx, mkPrototype_levelIndex]; simp
        · intro j hj; omega
        · intro hj; omega
        · rw [hn0, mkPrototype_dataSize This vk, hn0]
          rfl
        · intro j hj; omega
      · obtain ⟨slen, slens, stop, schain⟩ := etc1s_success_idx eng tex2
          (mkPrototype This vk) (transcodeHasAlpha This) hn hplen htr
        refine ⟨?_, ?_, ?_, ?_, ?_⟩
        · rw [slen, hT1]
        · intro j hj
          rw [(slens j (by omega)).1, (slens j (by omega)).2]
        · intro hj
          rw [← hT1]
          exact stop
        · rw [mkPrototype_dataSize This vk]
          apply paddedLevelSum_congr
          intro l hl
          rw [(slens l (by omega)).1, hlev l]
        · intro j hj
          rw [if_pos hschThis]
          exact schain j (by omega)
    · -- universal (UASTC) path
      rw [hpost, hcommit]
      obtain ⟨hc1, hc2, hc3, _, _, _⟩ := commit_fields tex2 (mkPrototype This vk)
        vk (ktxTexture2_transcodeUastc eng tex2 (transcodeHasAlpha This)
          (mkPrototype This vk)).2.1
      simp only [hc1, hc2, hc3]
      have hschThis : ¬ This.supercompressionScheme = KTX_SS_BASIS_UNIVERSAL := by
        rw [← hT5]; exact hsch
      by_cases hn : tex2.numLevels = 0
      · have hn0 : This.numLevels = 0 := by omega
        have hidx := uastc_numLevels_zero eng tex2 (mkPrototype This vk)
          (transcodeHasAlpha This) hn
        refine ⟨?_, ?_, ?_, ?_, ?_⟩
        · rw [hidx, mkPrototype_levelIndex]; simp
        · intro j hj; omega
        · intro hj; omega
        · rw [hn0, mkPrototype_dataSize This vk, hn0]
          rfl
        · intro j hj; omega
      · obtain ⟨_, slen, slens, stop, schain⟩ := uastc_success_idx eng tex2
          (mkPrototype This vk) (transcodeHasAlpha This) hn hplen
        refine ⟨?_, ?_, ?_, ?_, ?_⟩
        · rw [slen, hT1]
        · intro j hj
          rw [(slens j (by omega)).1, (slens j (by omega)).2]
        · intro hj
          rw [← hT1]
          exact stop
        · rw [mkPrototype_dataSize This vk]
          apply paddedLevelSum_congr
          intro l hl
          rw [(slens l (by omega)).1, hlev l]
        · intro j hj
          rw [if_neg hschThis]
          exact schain j (by omega)

/-- Closed witness for C4's amended theorem at a concrete successful
transcode. -/
theorem C4_success_level_index_witness :
    (ktxTexture2_TranscodeBasis engineOk uastcTex2x2 KTX_TTF_RGB565 flags0
      false).result = KTX_SUCCESS ∧
    ((postTexture engineOk uastcTex2x2 KTX_TTF_RGB565 flags0
        false).levelIndex.length = uastcTex2x2.numLevels ∧
     (∀ j, j < uastcTex2x2.numLevels →
       (((postTexture engineOk uastcTex2x2 KTX_TTF_RGB565 flags0
            false).levelIndex.getD j default).byteLength =
        ((postTexture engineOk uastcTex2x2 KTX_TTF_RGB565 flags0
            false).levelIndex.getD j default).uncompressedByteLength)) ∧
     (0 < uastcTex2x2.numLevels →
       (((postTexture engineOk uastcTex2x2 KTX_TTF_RGB565 flags0
            false).levelIndex.getD (uastcTex2x2.numLevels - 1)
            default).byteOffset = 0)) ∧
     paddedLevelSum (postTexture engineOk uastcTex2x2 KTX_TTF_RGB565 flags0
         false).requiredLevelAlignment
       (fun l => ((postTexture engineOk uastcTex2x2 KTX_TTF_RGB565 flags0
           false).levelIndex.getD l default).byteLength)
       uastcTex2x2.numLevels =
       (postTexture engineOk uastcTex2x2 KTX_TTF_RGB565 flags0
         false).dataSize ∧
     (∀ j, j + 1 < uastcTex2x2.numLevels →
       ((postTexture engineOk uastcTex2x2 KTX_TTF_RGB565 flags0
           false).levelIndex.getD j default).byteOffset =
         (if uastcTex2x2.supercompressionScheme = KTX_SS_BASIS_UNIVERSAL then
           KTX_PADN (postTexture engineOk uastcTex2x2 KTX_TTF_RGB565 flags0
               false).requiredLevelAlignment
             (((postTexture engineOk uastcTex2x2 KTX_TTF_RGB565 flags0
                 false).levelIndex.getD (j + 1) default).byteOffset +
              ((postTexture engineOk uastcTex2x2 KTX_TTF_RGB565 flags0
                 false).levelIndex.getD (j + 1) default).byteLength)
         else
           ((postTexture engineOk uastcTex2x2 KTX_TTF_RGB565 flags0
               false).levelIndex.getD (j + 1) default).byteOffset +
             ((postTexture engineOk uastcTex2x2 KTX_TTF_RGB565 flags0
                 false).levelIndex.getD (j + 1) default).byteLength))) :=
  ⟨by decide, C4_success_level_index engineOk uastcTex2x2 KTX_TTF_RGB565 flags0
    false (by decide)⟩
